import Mathlib

/-!
# FaceTrack: the crop-region tracker of the `facetracker` GStreamer element

A shallow embedding of `gst-plugins/gst-facetracker/gstfacetracker.c` and
`gstfacetracker.h`.

Modelling conventions

* `guint` / `uint32_t` fields are natural numbers; every C operation that can
  wrap (the subtraction in `gst_facetracker_start`, `frame_num++`, the cast
  `(guint)`) is written with an explicit `% 4294967296`.
* `gfloat` values (the `rect_params` of the detector and the intermediate centre
  and candidate values) are rationals. Lines 501-506 are rendered twice. In
  `obj_src_rect` every float operation is exact; this rendering carries the claims
  on the structure of the update (carry-forward, last detection, window size,
  bounds on the element as shipped), which rounding does not reach. In
  `obj_src_rect_f32` every float operation, the conversions of `guint` values
  included, rounds to binary32 (nearest, ties to even, with subnormals); it
  carries the claims on the emitted numbers. Infinities and NaN are not
  modelled: a finite detection that overflows is clamped as its unbounded value is.
* The framework objects (buffers, surfaces, caps, the pool) are reduced to what
  the tracker reads from them: whether each buffer could be mapped, the batch
  metadata of the input buffer (a list of frames, each a list of objects) and
  the status of the crop call, whose result is only printed.
* `sscanf` is the C library function; the call of line 693 is modelled after the
  C standard (the conversions `%u`, the literal `x`, the return value).
-/

namespace FaceTrack

/-- The modulus of `guint` arithmetic, `2^32`. -/
def G_MAXUINT_SUCC : Nat := 4294967296

/-- The struct `NvBufSurfTransformRect` of the surface-transform API: four
`uint32_t` fields, in the order of the API. -/
structure NvBufSurfTransformRect where
  top : Nat
  left : Nat
  width : Nat
  height : Nat
deriving DecidableEq

/-- The fields `left`, `top`, `width`, `height` of `NvOSD_RectParams`, the
bounding box of one detected object (`obj_meta->rect_params`); they are floats
in the C API and rationals here. -/
structure NvOSD_RectParams where
  left : ℚ
  top : ℚ
  width : ℚ
  height : ℚ
deriving DecidableEq

/-- The memory-feature enumeration (`MEM_FEATURE_NVMM`, `MEM_FEATURE_RAW`). -/
def MEM_FEATURE_NVMM : Int := 0

/-- Second member of the memory-feature enumeration. -/
def MEM_FEATURE_RAW : Int := 1

/-- The struct `_GstFaceTracker` (gstfacetracker.h, lines 66-98) without the parent
instance and the caps / pool / format handles, which the tracker logic never reads. -/
structure GstFaceTracker where
  input_width : Nat
  input_height : Nat
  output_width : Nat
  output_height : Nat
  input_feature : Int
  output_feature : Int
  frame_num : Nat
  output_resolution_str : Option String
  prev_rect : NvBufSurfTransformRect
  left_upper_limit : Nat
  top_upper_limit : Nat
deriving DecidableEq

/-- Instance memory as the GObject type system hands it to the instance
initialiser: every byte is zero (`output_resolution_str` is `NULL`). -/
def zeroed : GstFaceTracker :=
  { input_width := 0, input_height := 0, output_width := 0, output_height := 0,
    input_feature := 0, output_feature := 0, frame_num := 0,
    output_resolution_str := none,
    prev_rect := { top := 0, left := 0, width := 0, height := 0 },
    left_upper_limit := 0, top_upper_limit := 0 }

/-- Line 36. -/
def DEFAULT_OUTPUT_WIDTH : Nat := 1920
/-- Line 37. -/
def DEFAULT_OUTPUT_HEIGHT : Nat := 1080
/-- Line 39. -/
def DEFAULT_INPUT_WIDTH : Nat := 3840
/-- Line 40. -/
def DEFAULT_INPUT_HEIGHT : Nat := 2160

/-- The instance initialiser `gst_facetracker_init` (lines 667-680): only the four
dimensions are assigned; `prev_rect`, `frame_num` and the limits keep the value
the instance memory had. -/
def gst_facetracker_init (facetracker : GstFaceTracker) : GstFaceTracker :=
  { facetracker with
    output_width := DEFAULT_OUTPUT_WIDTH
    output_height := DEFAULT_OUTPUT_HEIGHT
    input_width := DEFAULT_INPUT_WIDTH
    input_height := DEFAULT_INPUT_HEIGHT }

/-- Unsigned 32-bit subtraction `a - b` of two `guint` values. -/
def guint_sub (a b : Nat) : Nat := (a + G_MAXUINT_SUCC - b % G_MAXUINT_SUCC) % G_MAXUINT_SUCC

/-- The start handler `gst_facetracker_start` (lines 575-586); it always returns `TRUE`,
so only the state is returned. -/
def gst_facetracker_start (facetracker : GstFaceTracker) : GstFaceTracker :=
  { facetracker with
    frame_num := 0
    left_upper_limit := guint_sub facetracker.input_width facetracker.output_width
    top_upper_limit := guint_sub facetracker.input_height facetracker.output_height }

/-- The GLib macro `MAX(a, b)`, which is `(((a) > (b)) ? (a) : (b))`. -/
def MAX (a b : ℚ) : ℚ := if a > b then a else b

/-- The GLib macro `MIN(a, b)`, which is `(((a) < (b)) ? (a) : (b))`. -/
def MIN (a b : ℚ) : ℚ := if a < b then a else b

/-- The cast `(guint) x` of a float: the fractional part is discarded (rounding
toward zero) and the integer is taken as an unsigned 32-bit value. C leaves the
cast undefined outside the `guint` range; here a negative integer gives 0 and a
large one wraps. The tracker only casts values between 0 and a limit. -/
def guint_of_gfloat (x : ℚ) : Nat :=
  (Int.toNat (if 0 ≤ x then ⌊x⌋ else ⌈x⌉)) % G_MAXUINT_SUCC

/-- The body of the object loop (lines 499-508) with every float operation carried
out exactly: the rectangle derived from one object. `output_width / 2` is a `guint`
division. The rendering with binary32 rounding is `obj_src_rect_f32`. -/
def obj_src_rect (facetracker : GstFaceTracker) (rect_params : NvOSD_RectParams) :
    NvBufSurfTransformRect :=
  let obj_x_center : ℚ := rect_params.left + rect_params.width / 2
  let obj_y_center : ℚ := rect_params.top + rect_params.height / 2
  { left := guint_of_gfloat
      (MIN (facetracker.left_upper_limit : ℚ)
        (MAX 0 (obj_x_center - ((facetracker.output_width / 2 : Nat) : ℚ))))
    top := guint_of_gfloat
      (MIN (facetracker.top_upper_limit : ℚ)
        (MAX 0 (obj_y_center - ((facetracker.output_height / 2 : Nat) : ℚ))))
    width := facetracker.output_width
    height := facetracker.output_height }

/-- The inner loop over `frame_meta->obj_meta_list` (lines 497-509): every object
overwrites `src_rect`. -/
def obj_loop (facetracker : GstFaceTracker) (src_rect : NvBufSurfTransformRect)
    (obj_meta_list : List NvOSD_RectParams) : NvBufSurfTransformRect :=
  obj_meta_list.foldl (fun _ rect_params => obj_src_rect facetracker rect_params) src_rect

/-- The outer loop over `batch_meta->frame_meta_list` (lines 493-510). -/
def frame_loop (facetracker : GstFaceTracker) (src_rect : NvBufSurfTransformRect)
    (frame_meta_list : List (List NvOSD_RectParams)) : NvBufSurfTransformRect :=
  frame_meta_list.foldl (fun r obj_meta_list => obj_loop facetracker r obj_meta_list) src_rect

/-- The return codes of `gst_facetracker_transform`. -/
inductive GstFlowReturn where
  | GST_FLOW_OK
  | GST_FLOW_ERROR
deriving DecidableEq

/-- What one call of `gst_facetracker_transform` leaves behind: the return code,
the element afterwards, the rectangle handed to `NvBufSurfTransform` (absent when
the call left before reaching it) and whether the transform error was printed. -/
structure TransformResult where
  ret : GstFlowReturn
  facetracker : GstFaceTracker
  src_rect : Option NvBufSurfTransformRect
  printerr : Bool
deriving DecidableEq

/-- The transform handler `gst_facetracker_transform` (lines 444-550). `inmap_ok` and
`outmap_ok` are the results of the two `gst_buffer_map` calls, `frame_meta_list`
is the batch metadata of the input buffer, `transform_ok` says whether
`NvBufSurfTransform` returned `NvBufSurfTransformError_Success`. -/
def gst_facetracker_transform (facetracker : GstFaceTracker) (inmap_ok outmap_ok : Bool)
    (frame_meta_list : List (List NvOSD_RectParams)) (transform_ok : Bool) :
    TransformResult :=
  if !inmap_ok then
    { ret := .GST_FLOW_ERROR, facetracker := facetracker, src_rect := none, printerr := false }
  else if !outmap_ok then
    { ret := .GST_FLOW_ERROR, facetracker := facetracker, src_rect := none, printerr := false }
  else
    let src_rect : NvBufSurfTransformRect :=
      { left := facetracker.prev_rect.left
        top := facetracker.prev_rect.top
        width := facetracker.output_width
        height := facetracker.output_height }
    let src_rect := frame_loop facetracker src_rect frame_meta_list
    { ret := .GST_FLOW_OK
      facetracker :=
        { facetracker with
          prev_rect := src_rect
          frame_num := (facetracker.frame_num + 1) % G_MAXUINT_SUCC }
      src_rect := some src_rect
      printerr := !transform_ok }

/-- The `update` step of the tracker: one call of the transform handler on a buffer
pair that maps, whose batch holds one frame with the detections `detections`,
and whose crop succeeds. -/
def update (facetracker : GstFaceTracker) (detections : List NvOSD_RectParams) :
    TransformResult :=
  gst_facetracker_transform facetracker true true [detections] true



/-- The clamp of the specification on integers: `x` limited to `[lo, hi]`. -/
def clamp (x lo hi : ℤ) : ℤ := min (max x lo) hi

/-- The clamp of the specification on rationals: `x` limited to `[lo, hi]`. -/
def clampQ (x lo hi : ℚ) : ℚ := min (max x lo) hi

/-- The property identifier `PROP_OUTPUT_RESOLUTION` (enumeration of lines 62-66). -/
def PROP_OUTPUT_RESOLUTION : Nat := 1

/-- The C library predicate `isspace` in the C locale: the space and the five
control characters tab, newline, vertical tab, form feed, carriage return
(codes 9 to 13). -/
def isspace (c : Char) : Bool :=
  c.toNat == 32 || (decide (9 ≤ c.toNat) && decide (c.toNat ≤ 13))

/-- One step of the decimal conversion of a digit string, most significant digit
first. -/
def digit_value (acc : Nat) (c : Char) : Nat := 10 * acc + (c.toNat - 48)

/-- The digit part of the conversion `%u`: the longest run of decimal digits is
read; without a digit the conversion fails (`none`). Otherwise the value is
converted as `strtoul` does in base 10 (a minus sign negates in unsigned
arithmetic), stored in an `unsigned int`, and the unread rest of the input is
returned with it. For a number beyond the `guint` range C leaves the stored value
undefined; here it wraps. -/
def scan_digits (negative : Bool) (input : List Char) : Option (Nat × List Char) :=
  let digits := input.takeWhile Char.isDigit
  if digits.isEmpty then none
  else
    let value := digits.foldl digit_value 0
    some ((if negative then G_MAXUINT_SUCC - value % G_MAXUINT_SUCC else value)
            % G_MAXUINT_SUCC,
          input.dropWhile Char.isDigit)

/-- The conversion `%u` of the C library function `sscanf`: white space is
skipped, an optional sign is read, then the digits. -/
def scan_unsigned (input : List Char) : Option (Nat × List Char) :=
  match input.dropWhile isspace with
  | '-' :: rest => scan_digits true rest
  | '+' :: rest => scan_digits false rest
  | rest => scan_digits false rest

/-- What the call `sscanf (str, "%ux%u", &width, &height)` leaves behind: its
return value and the contents of the two pointed-to variables. -/
structure SscanfResult where
  result : Int
  width : Nat
  height : Nat
deriving DecidableEq

/-- The call `sscanf (str, "%ux%u", &width, &height)` of line 693, after the C
standard: the first `%u`, the literal character `x`, the second `%u`. The return
value is the number of variables assigned, or `EOF` (-1) when the input ends
before the first conversion starts; a variable that is not assigned keeps its
value. Input after the second number is not looked at. -/
def sscanf_u_x_u (str : List Char) (width height : Nat) : SscanfResult :=
  match scan_unsigned str with
  | none =>
      { result := if (str.dropWhile isspace).isEmpty then -1 else 0
        width := width, height := height }
  | some (w, rest) =>
      if rest.head? = some 'x' then
        match scan_unsigned rest.tail with
        | none => { result := 1, width := w, height := height }
        | some (h, _) => { result := 2, width := w, height := h }
      else
        { result := 1, width := w, height := height }

/-- How a call of `gst_facetracker_set_property` ends: it returns, leaving the
element in the given state, or it ends the process through `abort ()`. -/
inductive SetPropertyOutcome where
  | returned (facetracker : GstFaceTracker)
  | aborted
deriving DecidableEq

/-- The property setter `gst_facetracker_set_property` (lines 682-711). `value` is the
string held by the `GValue` (not `NULL`, without a NUL character). For the
output-resolution property the string is stored, scanned into `output_width`
and `output_height`, and the process is aborted unless `sscanf` returned 2. Any
other property identifier only produces a warning. -/
def gst_facetracker_set_property (facetracker : GstFaceTracker) (prop_id : Nat)
    (value : String) : SetPropertyOutcome :=
  if prop_id = PROP_OUTPUT_RESOLUTION then
    let facetracker := { facetracker with output_resolution_str := some value }
    let scanned :=
      sscanf_u_x_u value.data facetracker.output_width facetracker.output_height
    if scanned.result = 2 then
      .returned
        { facetracker with output_width := scanned.width, output_height := scanned.height }
    else
      .aborted
  else
    .returned facetracker

/-- A number in the form the conversion `%u` reads it: any white space, an optional
sign, at least one decimal digit. -/
def UnsignedField (field : List Char) : Prop :=
  ∃ ws sg ds, field = ws ++ (sg ++ ds) ∧ (∀ c ∈ ws, isspace c = true) ∧
    (sg = [] ∨ sg = ['+'] ∨ sg = ['-']) ∧ ds ≠ [] ∧ ∀ c ∈ ds, c.isDigit = true

/-- The strings on which `sscanf` with the format `%ux%u` assigns both variables:
a number, the character `x`, a number, then any further text. -/
def ResolutionShape (str : List Char) : Prop :=
  ∃ f1 f2 rest, str = f1 ++ 'x' :: (f2 ++ rest) ∧ UnsignedField f1 ∧ UnsignedField f2

/-- The resolution string of the specification, `WIDTHxHEIGHT`: the decimal digits
of `W`, the character `x`, the decimal digits of `H`. -/
def resolution_string (W H : Nat) : String := toString W ++ "x" ++ toString H

/-- Rounding of a rational to the nearest integer, a tie going to the even
neighbour (the IEEE 754 default rounding). -/
def round_half_even (t : ℚ) : ℤ :=
  if t - ⌊t⌋ < 1 / 2 then ⌊t⌋
  else if 1 / 2 < t - ⌊t⌋ then ⌊t⌋ + 1
  else if ⌊t⌋ % 2 = 0 then ⌊t⌋ else ⌊t⌋ + 1

/-- The exponent `e` of the binary32 grid around `x`: the binary32 values near `x`
are the multiples of `2 ^ e`. A 24-bit significand gives `e = floor (log2 |x|) - 23`;
below the smallest normal number `2 ^ (-126)` the grid is that of the subnormal
numbers, `2 ^ (-149)`. -/
def binary32_exponent (x : ℚ) : ℤ := max (Int.log 2 |x| - 23) (-149)

/-- The result of a `gfloat` operation whose exact value is `x`: `x` rounded to
binary32, to nearest, ties to even. The exponent is not bounded above: overflow
to an infinity is not modelled. -/
def binary32 (x : ℚ) : ℚ :=
  (round_half_even (x / 2 ^ binary32_exponent x) : ℚ) * 2 ^ binary32_exponent x

/-- The variable `obj_x_center` of line 501: `left + (width / 2)` in `gfloat`
arithmetic, the division and the addition each rounding to binary32. -/
def obj_x_center (rect_params : NvOSD_RectParams) : ℚ :=
  binary32 (rect_params.left + binary32 (rect_params.width / 2))

/-- The variable `obj_y_center` of line 502. -/
def obj_y_center (rect_params : NvOSD_RectParams) : ℚ :=
  binary32 (rect_params.top + binary32 (rect_params.height / 2))

/-- The body of the object loop (lines 499-508) in binary32 arithmetic.
`output_width / 2` is a `guint` division whose result is converted to `gfloat` for
the subtraction; the subtraction rounds; `MAX` compares with the `int` 0; `MIN`
converts the `guint` limit to `gfloat`, compares, and yields a `gfloat`; the cast
`(guint)` truncates. A limit of `2^32 - 128` or more converts to `2^32`, which the
cast cannot represent (undefined in C; `guint_of_gfloat` wraps it to 0, as the
conversion through a 64-bit integer on x86-64 does). -/
def obj_src_rect_f32 (facetracker : GstFaceTracker) (rect_params : NvOSD_RectParams) :
    NvBufSurfTransformRect :=
  { left := guint_of_gfloat
      (MIN (binary32 (facetracker.left_upper_limit : ℚ))
        (MAX 0 (binary32 (obj_x_center rect_params
          - binary32 ((facetracker.output_width / 2 : Nat) : ℚ)))))
    top := guint_of_gfloat
      (MIN (binary32 (facetracker.top_upper_limit : ℚ))
        (MAX 0 (binary32 (obj_y_center rect_params
          - binary32 ((facetracker.output_height / 2 : Nat) : ℚ)))))
    width := facetracker.output_width
    height := facetracker.output_height }

/-- The inner loop over `frame_meta->obj_meta_list` (lines 497-509), binary32
arithmetic. -/
def obj_loop_f32 (facetracker : GstFaceTracker) (src_rect : NvBufSurfTransformRect)
    (obj_meta_list : List NvOSD_RectParams) : NvBufSurfTransformRect :=
  obj_meta_list.foldl (fun _ rect_params => obj_src_rect_f32 facetracker rect_params) src_rect

/-- The outer loop over `batch_meta->frame_meta_list` (lines 493-510), binary32
arithmetic. -/
def frame_loop_f32 (facetracker : GstFaceTracker) (src_rect : NvBufSurfTransformRect)
    (frame_meta_list : List (List NvOSD_RectParams)) : NvBufSurfTransformRect :=
  frame_meta_list.foldl
    (fun r obj_meta_list => obj_loop_f32 facetracker r obj_meta_list) src_rect

/-- The transform handler `gst_facetracker_transform` (lines 444-550) with the object
loop in binary32 arithmetic; everything else as in `gst_facetracker_transform`. -/
def gst_facetracker_transform_f32 (facetracker : GstFaceTracker) (inmap_ok outmap_ok : Bool)
    (frame_meta_list : List (List NvOSD_RectParams)) (transform_ok : Bool) :
    TransformResult :=
  if !inmap_ok then
    { ret := .GST_FLOW_ERROR, facetracker := facetracker, src_rect := none, printerr := false }
  else if !outmap_ok then
    { ret := .GST_FLOW_ERROR, facetracker := facetracker, src_rect := none, printerr := false }
  else
    let src_rect : NvBufSurfTransformRect :=
      { left := facetracker.prev_rect.left
        top := facetracker.prev_rect.top
        width := facetracker.output_width
        height := facetracker.output_height }
    let src_rect := frame_loop_f32 facetracker src_rect frame_meta_list
    { ret := .GST_FLOW_OK
      facetracker :=
        { facetracker with
          prev_rect := src_rect
          frame_num := (facetracker.frame_num + 1) % G_MAXUINT_SUCC }
      src_rect := some src_rect
      printerr := !transform_ok }

/-- The `update` step of the tracker in binary32 arithmetic: one call of the
transform handler on a buffer pair that maps, whose batch holds one frame with the
detections `detections`, and whose crop succeeds. -/
def update_f32 (facetracker : GstFaceTracker) (detections : List NvOSD_RectParams) :
    TransformResult :=
  gst_facetracker_transform_f32 facetracker true true [detections] true

/-! ## Auxiliary facts -/

theorem MAX_zero_nonneg (y : ℚ) : 0 ≤ MAX 0 y := by
  unfold MAX
  split_ifs with h
  · exact le_refl 0
  · exact not_lt.mp h

theorem MIN_le_left (a b : ℚ) : MIN a b ≤ a := by
  unfold MIN
  split_ifs with h
  · exact le_refl a
  · exact not_lt.mp h

theorem MIN_nonneg {a b : ℚ} (ha : 0 ≤ a) (hb : 0 ≤ b) : 0 ≤ MIN a b := by
  unfold MIN
  split_ifs <;> assumption

theorem guint_of_gfloat_le {x : ℚ} {n : Nat} (h0 : 0 ≤ x) (h : x ≤ n) :
    guint_of_gfloat x ≤ n := by
  unfold guint_of_gfloat
  rw [if_pos h0]
  have h1 : ⌊x⌋ ≤ (n : ℤ) := by
    have := Int.floor_mono h
    simpa using this
  have h2 : Int.toNat ⌊x⌋ ≤ n := by
    rw [Int.toNat_le]; exact h1
  exact le_trans (Nat.mod_le _ _) h2

theorem guint_of_gfloat_natCast (n : Nat) : guint_of_gfloat (n : ℚ) = n % G_MAXUINT_SUCC := by
  unfold guint_of_gfloat
  rw [if_pos (Nat.cast_nonneg n)]
  simp

/-- A candidate coordinate never exceeds the limit it is clamped with. -/
theorem candidate_le_limit (limit : Nat) (y : ℚ) :
    guint_of_gfloat (MIN (limit : ℚ) (MAX 0 y)) ≤ limit :=
  guint_of_gfloat_le (MIN_nonneg (Nat.cast_nonneg limit) (MAX_zero_nonneg y)) (MIN_le_left _ _)

theorem obj_loop_nil (s : GstFaceTracker) (r : NvBufSurfTransformRect) :
    obj_loop s r [] = r := rfl

theorem obj_loop_singleton (s : GstFaceTracker) (r : NvBufSurfTransformRect)
    (d : NvOSD_RectParams) : obj_loop s r [d] = obj_src_rect s d := rfl

theorem obj_loop_append_singleton (s : GstFaceTracker) (r : NvBufSurfTransformRect)
    (ds : List NvOSD_RectParams) (d : NvOSD_RectParams) :
    obj_loop s r (ds ++ [d]) = obj_src_rect s d := by
  simp [obj_loop, List.foldl_append]

theorem obj_loop_of_ne_nil (s : GstFaceTracker) (r : NvBufSurfTransformRect)
    (ds : List NvOSD_RectParams) (h : ds ≠ []) :
    obj_loop s r ds = obj_src_rect s (ds.getLast h) := by
  have key := List.dropLast_append_getLast h
  have step := obj_loop_append_singleton s r ds.dropLast (ds.getLast h)
  rw [key] at step
  exact step

theorem update_src_rect (s : GstFaceTracker) (ds : List NvOSD_RectParams) :
    (update s ds).src_rect = some (obj_loop s
      { left := s.prev_rect.left, top := s.prev_rect.top,
        width := s.output_width, height := s.output_height } ds) := rfl

theorem update_facetracker (s : GstFaceTracker) (ds : List NvOSD_RectParams) :
    (update s ds).facetracker =
      { s with
        prev_rect := obj_loop s
          { left := s.prev_rect.left, top := s.prev_rect.top,
            width := s.output_width, height := s.output_height } ds
        frame_num := (s.frame_num + 1) % G_MAXUINT_SUCC } := rfl

theorem guint_of_gfloat_zero : guint_of_gfloat 0 = 0 := by
  simp [guint_of_gfloat]

/-- The candidate coordinate in closed form: the floor of the unclamped value,
clamped to `[0, limit]`. -/
theorem candidate_eq_clamp_floor (limit : Nat) (hlimit : limit < G_MAXUINT_SUCC) (x : ℚ) :
    guint_of_gfloat (MIN (limit : ℚ) (MAX 0 x)) = Int.toNat (clamp ⌊x⌋ 0 limit) := by
  unfold MIN MAX clamp
  by_cases hx : (0 : ℚ) > x
  · rw [if_pos hx, if_neg (not_lt.mpr (Nat.cast_nonneg limit)), guint_of_gfloat_zero]
    have hq : ⌊x⌋ < 0 := Int.floor_lt.mpr (by simpa using hx)
    rw [max_eq_right (le_of_lt hq), min_eq_left (Int.ofNat_nonneg limit)]
    rfl
  · rw [if_neg hx]
    have hx0 : 0 ≤ x := not_lt.mp hx
    rw [max_eq_left (Int.floor_nonneg.mpr hx0)]
    by_cases hLx : (limit : ℚ) < x
    · rw [if_pos hLx, guint_of_gfloat_natCast, Nat.mod_eq_of_lt hlimit]
      have hle : (limit : ℤ) ≤ ⌊x⌋ := Int.le_floor.mpr (by exact_mod_cast le_of_lt hLx)
      rw [min_eq_right hle]
      simp
    · rw [if_neg hLx]
      have hle : ⌊x⌋ ≤ (limit : ℤ) := by
        have := Int.floor_mono (not_lt.mp hLx)
        simpa using this
      rw [min_eq_left hle]
      unfold guint_of_gfloat
      rw [if_pos hx0]
      apply Nat.mod_eq_of_lt
      have hnat : Int.toNat ⌊x⌋ ≤ limit := by
        rw [Int.toNat_le]; exact hle
      exact lt_of_le_of_lt hnat hlimit

/-- The floor of an integer centre offset: with natural coordinates the float
expression `left + width / 2 - half` has the integer-division value as floor. -/
theorem floor_center_sub (a w h : Nat) :
    ⌊(a : ℚ) + (w : ℚ) / 2 - (h : ℚ)⌋ = ((a + w / 2 : Nat) : ℤ) - (h : ℤ) := by
  rw [Int.floor_eq_iff]
  have h2 : (w : ℚ) = 2 * ((w / 2 : Nat) : ℚ) + ((w % 2 : Nat) : ℚ) := by
    exact_mod_cast (Nat.div_add_mod w 2).symm
  have h3 : ((w % 2 : Nat) : ℚ) < 2 := by
    exact_mod_cast Nat.mod_lt w (by norm_num)
  have h4 : (0 : ℚ) ≤ ((w % 2 : Nat) : ℚ) := Nat.cast_nonneg _
  have e : ((((a + w / 2 : Nat) : ℤ) - (h : ℤ) : ℤ) : ℚ)
      = (a : ℚ) + ((w / 2 : Nat) : ℚ) - (h : ℚ) := by
    simp only [Int.cast_sub, Int.cast_add, Int.cast_natCast, Nat.cast_add]
  rw [e]
  constructor <;> linarith

/-- After an update the stored rectangle has the output size. -/
theorem update_prev_rect_size (s : GstFaceTracker) (ds : List NvOSD_RectParams) :
    (update s ds).facetracker.prev_rect.width = s.output_width ∧
      (update s ds).facetracker.prev_rect.height = s.output_height := by
  rw [update_facetracker]
  by_cases h : ds = []
  · subst h
    exact ⟨rfl, rfl⟩
  · simp only [obj_loop_of_ne_nil s _ ds h]
    exact ⟨rfl, rfl⟩

/-- The rectangle stored in the scenario of the specification (section 8). -/
theorem scenario_src_rect :
    (update (gst_facetracker_start (gst_facetracker_init zeroed))
        [{ left := 1900, top := 1000, width := 100, height := 100 }]).facetracker.prev_rect =
      { left := 990, top := 510, width := 1920, height := 1080 } := by
  rw [update_facetracker, obj_loop_singleton]
  norm_num [obj_src_rect, gst_facetracker_start, gst_facetracker_init, zeroed, guint_sub,
    G_MAXUINT_SUCC, MIN, MAX, guint_of_gfloat, DEFAULT_INPUT_HEIGHT, DEFAULT_INPUT_WIDTH,
    DEFAULT_OUTPUT_HEIGHT, DEFAULT_OUTPUT_WIDTH]
  constructor <;> rfl

/-! ## The claims -/

/-- C3 (carry-forward). After any update, whatever detections it received, an
update with an empty detection list emits exactly the rectangle the preceding
update emitted. (The update step itself never changes the output size.) -/
theorem C3_carry_forward (s : GstFaceTracker) (ds : List NvOSD_RectParams) :
    ∃ r, (update s ds).src_rect = some r ∧
      (update (update s ds).facetracker []).src_rect = some r := by
  refine ⟨_, update_src_rect s ds, ?_⟩
  rw [update_src_rect, obj_loop_nil, update_facetracker]
  by_cases h : ds = []
  · subst h
    rfl
  · simp only [obj_loop_of_ne_nil s _ ds h]
    rfl

/-- C4 (last detection wins). For a non-empty detection list the update returns
the same result (return code, rectangle, tracker state) as the update with the
last detection alone. -/
theorem C4_last_detection_wins (s : GstFaceTracker) (ds : List NvOSD_RectParams)
    (h : ds ≠ []) :
    update s ds = update s [ds.getLast h] := by
  have hrect := obj_loop_of_ne_nil s
    { left := s.prev_rect.left, top := s.prev_rect.top,
      width := s.output_width, height := s.output_height } ds h
  show gst_facetracker_transform s true true [ds] true
    = gst_facetracker_transform s true true [[ds.getLast h]] true
  simp only [gst_facetracker_transform, frame_loop, List.foldl_cons, List.foldl_nil, hrect,
    obj_loop_singleton]

/-- C4, instance: a frame with three detections `[A, B, C]` gives the result of
`[C]` alone. -/
theorem C4_last_detection_wins_witness :
    update (gst_facetracker_start (gst_facetracker_init zeroed))
        [{ left := 10, top := 20, width := 30, height := 40 },
         { left := 3000, top := 2000, width := 50, height := 60 },
         { left := 1900, top := 1000, width := 100, height := 100 }] =
      update (gst_facetracker_start (gst_facetracker_init zeroed))
        [{ left := 1900, top := 1000, width := 100, height := 100 }] :=
  C4_last_detection_wins (gst_facetracker_start (gst_facetracker_init zeroed))
    [{ left := 10, top := 20, width := 30, height := 40 },
     { left := 3000, top := 2000, width := 50, height := 60 },
     { left := 1900, top := 1000, width := 100, height := 100 }] (List.cons_ne_nil _ _)

/-- C5 (fixed window size). For every tracker state and every detection list the
emitted rectangle and the stored `prev_rect` have the configured output width and
height, and the update leaves that configuration as it was. -/
theorem C5_fixed_window_size (s : GstFaceTracker) (ds : List NvOSD_RectParams) :
    ∃ r, (update s ds).src_rect = some r ∧
      r.width = s.output_width ∧ r.height = s.output_height ∧
      (update s ds).facetracker.prev_rect.width = s.output_width ∧
      (update s ds).facetracker.prev_rect.height = s.output_height ∧
      (update s ds).facetracker.output_width = s.output_width ∧
      (update s ds).facetracker.output_height = s.output_height := by
  have key : (obj_loop s
      { left := s.prev_rect.left, top := s.prev_rect.top,
        width := s.output_width, height := s.output_height } ds).width = s.output_width ∧
      (obj_loop s
      { left := s.prev_rect.left, top := s.prev_rect.top,
        width := s.output_width, height := s.output_height } ds).height = s.output_height := by
    by_cases h : ds = []
    · subst h
      exact ⟨rfl, rfl⟩
    · rw [obj_loop_of_ne_nil s _ ds h]
      exact ⟨rfl, rfl⟩
  exact ⟨_, update_src_rect s ds, key.1, key.2, key.1, key.2, rfl, rfl⟩

/-- C7 (default first rectangle). On a fresh element (its `prev_rect` still the
zero bytes of the instance memory) that has been started, the first update with
an empty detection list emits `{left 0, top 0, output_width, output_height}`. -/
theorem C7_default_first_rectangle (s0 : GstFaceTracker)
    (hfresh : s0.prev_rect = { top := 0, left := 0, width := 0, height := 0 }) :
    (update (gst_facetracker_start s0) []).src_rect =
      some { left := 0, top := 0, width := s0.output_width, height := s0.output_height } := by
  rw [update_src_rect, obj_loop_nil]
  simp [gst_facetracker_start, hfresh]

/-- C7, the scenario of the specification: the default element (3840x2160 in,
1920x1080 out), started, gives `{0, 0, 1920, 1080}` on `update([])`. -/
theorem C7_default_first_rectangle_witness :
    (gst_facetracker_init zeroed).prev_rect = { top := 0, left := 0, width := 0, height := 0 } ∧
    (gst_facetracker_init zeroed).input_width = 3840 ∧
    (gst_facetracker_init zeroed).input_height = 2160 ∧
    (update (gst_facetracker_start (gst_facetracker_init zeroed)) []).src_rect =
      some { left := 0, top := 0, width := 1920, height := 1080 } :=
  ⟨rfl, rfl, rfl, C7_default_first_rectangle (gst_facetracker_init zeroed) rfl⟩

/-- C8, counterexample: on the started default element, before the very first
frame, `prev_rect` is `{0, 0, 0, 0}`; the update with an empty detection list
stores `{0, 0, 1920, 1080}`, so `prev_rect` does not stay unchanged. -/
theorem C8_empty_frame_counterexample :
    (gst_facetracker_start (gst_facetracker_init zeroed)).prev_rect =
      { left := 0, top := 0, width := 0, height := 0 } ∧
    (update (gst_facetracker_start (gst_facetracker_init zeroed)) []).facetracker.prev_rect =
      { left := 0, top := 0, width := 1920, height := 1080 } ∧
    (update (gst_facetracker_start (gst_facetracker_init zeroed)) []).facetracker.prev_rect ≠
      (gst_facetracker_start (gst_facetracker_init zeroed)).prev_rect := by
  refine ⟨rfl, rfl, ?_⟩
  decide

/-- C8 (empty-frame frame condition, amended). For every tracker state, the update
with an empty detection list keeps `prev_rect.left` and `prev_rect.top`, sets
`prev_rect.width` and `prev_rect.height` to the current output size, adds one to
`frame_num` modulo `2^32`, and changes no other field. So `prev_rect` as a whole
is unchanged exactly when it already has the current output size; that is the
case in the state an update has just produced, where a following update with an
empty list changes `frame_num` only. -/
theorem C8_empty_frame_effect (s : GstFaceTracker) (ds : List NvOSD_RectParams) :
    (update s []).facetracker =
      { s with
        prev_rect :=
          { left := s.prev_rect.left, top := s.prev_rect.top
            width := s.output_width, height := s.output_height }
        frame_num := (s.frame_num + 1) % G_MAXUINT_SUCC } ∧
    ((update s []).facetracker.prev_rect = s.prev_rect ↔
      (s.prev_rect.width = s.output_width ∧ s.prev_rect.height = s.output_height)) ∧
    (update (update s ds).facetracker []).facetracker =
      { (update s ds).facetracker with
        frame_num := ((update s ds).facetracker.frame_num + 1) % G_MAXUINT_SUCC } := by
  refine ⟨rfl, ?_, ?_⟩
  · rw [update_facetracker, obj_loop_nil]
    constructor
    · intro h
      have hw := congrArg NvBufSurfTransformRect.width h
      have hh := congrArg NvBufSurfTransformRect.height h
      exact ⟨hw.symm, hh.symm⟩
    · rintro ⟨hw, hh⟩
      show ({ left := s.prev_rect.left, top := s.prev_rect.top
              width := s.output_width, height := s.output_height } :
        NvBufSurfTransformRect) = s.prev_rect
      rw [← hw, ← hh]
  · have hsize := update_prev_rect_size s ds
    have hout : (update s ds).facetracker.output_width = s.output_width ∧
        (update s ds).facetracker.output_height = s.output_height := ⟨rfl, rfl⟩
    generalize (update s ds).facetracker = m at hsize hout
    have hp : ({ left := m.prev_rect.left, top := m.prev_rect.top
                 width := m.output_width, height := m.output_height } :
        NvBufSurfTransformRect) = m.prev_rect := by
      rw [hout.1, hout.2, ← hsize.1, ← hsize.2]
    rw [update_facetracker, obj_loop_nil, hp]

/-- C9, counterexample: with input width 3840 and output width 4000 the start
handler stores `4294967136` as left limit, not `max(0, 3840 - 4000) = 0`. -/
theorem C9_bound_computation_counterexample :
    (gst_facetracker_start
      { gst_facetracker_init zeroed with output_width := 4000 }).left_upper_limit
      = 4294967136 ∧
    ((gst_facetracker_start
      { gst_facetracker_init zeroed with output_width := 4000 }).left_upper_limit : ℤ)
      ≠ max 0 ((3840 : ℤ) - 4000) := by
  refine ⟨rfl, ?_⟩
  decide

/-- C9 (bound computation, amended). For `guint` input dimensions the start handler
sets `left_upper_limit = (input_width - output_width) mod 2^32` and
`top_upper_limit = (input_height - output_height) mod 2^32`; on each axis this is
`max(0, input - output)` whenever the output dimension does not exceed the input
dimension. -/
theorem C9_bound_computation (s : GstFaceTracker)
    (hiw : s.input_width < G_MAXUINT_SUCC) (hih : s.input_height < G_MAXUINT_SUCC) :
    ((gst_facetracker_start s).left_upper_limit : ℤ)
      = ((s.input_width : ℤ) - (s.output_width : ℤ)) % 4294967296 ∧
    ((gst_facetracker_start s).top_upper_limit : ℤ)
      = ((s.input_height : ℤ) - (s.output_height : ℤ)) % 4294967296 ∧
    (s.output_width ≤ s.input_width →
      ((gst_facetracker_start s).left_upper_limit : ℤ)
        = max 0 ((s.input_width : ℤ) - (s.output_width : ℤ))) ∧
    (s.output_height ≤ s.input_height →
      ((gst_facetracker_start s).top_upper_limit : ℤ)
        = max 0 ((s.input_height : ℤ) - (s.output_height : ℤ))) := by
  have e1 : (gst_facetracker_start s).left_upper_limit
      = guint_sub s.input_width s.output_width := rfl
  have e2 : (gst_facetracker_start s).top_upper_limit
      = guint_sub s.input_height s.output_height := rfl
  rw [e1, e2]
  unfold guint_sub
  unfold G_MAXUINT_SUCC at *
  refine ⟨?_, ?_, ?_, ?_⟩ <;> omega

/-- C9, instance: the default element (3840x2160 in, 1920x1080 out). -/
theorem C9_bound_computation_witness :
    ((gst_facetracker_start (gst_facetracker_init zeroed)).left_upper_limit : ℤ)
      = ((3840 : ℤ) - 1920) % 4294967296 ∧
    ((gst_facetracker_start (gst_facetracker_init zeroed)).top_upper_limit : ℤ)
      = ((2160 : ℤ) - 1080) % 4294967296 ∧
    ((gst_facetracker_start (gst_facetracker_init zeroed)).left_upper_limit : ℤ)
      = max 0 ((3840 : ℤ) - 1920) ∧
    ((gst_facetracker_start (gst_facetracker_init zeroed)).top_upper_limit : ℤ)
      = max 0 ((2160 : ℤ) - 1080) :=
  ⟨(C9_bound_computation (gst_facetracker_init zeroed) (by decide) (by decide)).1,
   (C9_bound_computation (gst_facetracker_init zeroed) (by decide) (by decide)).2.1,
   (C9_bound_computation (gst_facetracker_init zeroed) (by decide) (by decide)).2.2.1
     (by decide),
   (C9_bound_computation (gst_facetracker_init zeroed) (by decide) (by decide)).2.2.2
     (by decide)⟩

/-- C10, counterexample: the default element, started, after one frame with the
detection `{1900, 1000, 100, 100}`, holds `prev_rect = {990, 510, 1920, 1080}`;
starting it again leaves that rectangle in place instead of `{0, 0, 1920, 1080}`. -/
theorem C10_start_reset_counterexample :
    (gst_facetracker_start
      (update (gst_facetracker_start (gst_facetracker_init zeroed))
        [{ left := 1900, top := 1000, width := 100, height := 100 }]).facetracker).prev_rect
      = { left := 990, top := 510, width := 1920, height := 1080 } ∧
    (gst_facetracker_start
      (update (gst_facetracker_start (gst_facetracker_init zeroed))
        [{ left := 1900, top := 1000, width := 100, height := 100 }]).facetracker).prev_rect
      ≠ { left := 0, top := 0, width := 1920, height := 1080 } := by
  have h : (gst_facetracker_start
      (update (gst_facetracker_start (gst_facetracker_init zeroed))
        [{ left := 1900, top := 1000, width := 100, height := 100 }]).facetracker).prev_rect
      = { left := 990, top := 510, width := 1920, height := 1080 } := scenario_src_rect
  refine ⟨h, ?_⟩
  rw [h]
  decide

/-- C10 (initialization, amended). For every prior tracker state the start handler
sets `frame_num` to 0 and leaves `prev_rect` exactly as it was; starting twice
ends in the same state as starting once; on a fresh default element the
rectangle left in place is the all-zero one. -/
theorem C10_start_effect (s : GstFaceTracker) :
    (gst_facetracker_start s).frame_num = 0 ∧
    (gst_facetracker_start s).prev_rect = s.prev_rect ∧
    gst_facetracker_start (gst_facetracker_start s) = gst_facetracker_start s ∧
    (gst_facetracker_start (gst_facetracker_init zeroed)).prev_rect =
      { left := 0, top := 0, width := 0, height := 0 } :=
  ⟨rfl, rfl, rfl, rfl⟩


/-! ## Facts about the scan of the resolution string -/

theorem dropWhile_append_of_all (p : Char → Bool) (ws l : List Char)
    (h : ∀ c ∈ ws, p c = true) : (ws ++ l).dropWhile p = l.dropWhile p := by
  induction ws with
  | nil => rfl
  | cons c ws ih =>
    have hc : p c = true := h c (List.mem_cons_self c ws)
    have hws : ∀ d ∈ ws, p d = true := fun d hd => h d (List.mem_cons_of_mem c hd)
    simp [List.dropWhile_cons, hc, ih hws]

theorem takeWhile_append_of_all (p : Char → Bool) (ds l : List Char)
    (h : ∀ c ∈ ds, p c = true) : (ds ++ l).takeWhile p = ds ++ l.takeWhile p := by
  induction ds with
  | nil => rfl
  | cons c ds ih =>
    have hc : p c = true := h c (List.mem_cons_self c ds)
    have hds : ∀ d ∈ ds, p d = true := fun d hd => h d (List.mem_cons_of_mem c hd)
    simp [List.takeWhile_cons, hc, ih hds]

/-- A successful digit scan has read a non-empty run of digits in front of the
rest it returns. -/
theorem scan_digits_sound (negative : Bool) (input : List Char) (v : Nat) (rest : List Char)
    (h : scan_digits negative input = some (v, rest)) :
    ∃ ds, ds ≠ [] ∧ (∀ c ∈ ds, c.isDigit = true) ∧ input = ds ++ rest := by
  unfold scan_digits at h
  simp only at h
  split at h
  · exact absurd h (by simp)
  · rename_i hne
    simp only [Option.some.injEq, Prod.mk.injEq] at h
    refine ⟨input.takeWhile Char.isDigit, ?_, ?_, ?_⟩
    · intro hnil
      exact hne (by simp [hnil])
    · intro c hc
      exact (List.mem_takeWhile_imp hc)
    · rw [← h.2]
      exact (List.takeWhile_append_dropWhile _ _).symm

/-- A successful `%u` conversion has read a field of the expected form in front of the
rest it returns. -/
theorem scan_unsigned_sound (input : List Char) (v : Nat) (rest : List Char)
    (h : scan_unsigned input = some (v, rest)) :
    ∃ field, UnsignedField field ∧ input = field ++ rest := by
  have hsplit := List.takeWhile_append_dropWhile isspace input
  have hws : ∀ c ∈ input.takeWhile isspace, isspace c = true :=
    fun c hc => List.mem_takeWhile_imp hc
  unfold scan_unsigned at h
  split at h
  · rename_i t heq
    obtain ⟨ds, hne, hall, hin⟩ := scan_digits_sound _ _ _ _ h
    refine ⟨input.takeWhile isspace ++ (['-'] ++ ds),
      ⟨_, _, _, rfl, hws, Or.inr (Or.inr rfl), hne, hall⟩, ?_⟩
    calc input = input.takeWhile isspace ++ input.dropWhile isspace := hsplit.symm
      _ = _ := by rw [heq, hin]; simp
  · rename_i t heq
    obtain ⟨ds, hne, hall, hin⟩ := scan_digits_sound _ _ _ _ h
    refine ⟨input.takeWhile isspace ++ (['+'] ++ ds),
      ⟨_, _, _, rfl, hws, Or.inr (Or.inl rfl), hne, hall⟩, ?_⟩
    calc input = input.takeWhile isspace ++ input.dropWhile isspace := hsplit.symm
      _ = _ := by rw [heq, hin]; simp
  · rename_i t _ _
    obtain ⟨ds, hne, hall, hin⟩ := scan_digits_sound _ _ _ _ h
    refine ⟨input.takeWhile isspace ++ ([] ++ ds),
      ⟨_, _, _, rfl, hws, Or.inl rfl, hne, hall⟩, ?_⟩
    calc input = input.takeWhile isspace ++ input.dropWhile isspace := hsplit.symm
      _ = _ := by rw [hin]; simp

theorem isspace_of_isDigit (c : Char) (h : c.isDigit = true) : isspace c = false := by
  unfold Char.isDigit at h
  unfold isspace
  have h1 : 48 ≤ c.toNat ∧ c.toNat ≤ 57 := by
    simpa [Char.toNat, UInt32.le_def, Fin.le_def] using h
  simp
  omega

theorem takeWhile_isDigit_of_head (c : Char) (l : List Char) (h : c.isDigit = false) :
    (c :: l).takeWhile Char.isDigit = [] := by
  simp [List.takeWhile_cons, h]

theorem dropWhile_eq_self_of_takeWhile_nil (p : Char → Bool) (l : List Char)
    (h : l.takeWhile p = []) : l.dropWhile p = l := by
  have := List.takeWhile_append_dropWhile p l
  rw [h] at this
  simpa using this

/-- The digit scan of a digit run followed by text that does not start with a
digit reads exactly the run. -/
theorem scan_digits_exact (negative : Bool) (ds rest : List Char) (hne : ds ≠ [])
    (hall : ∀ c ∈ ds, c.isDigit = true) (hrest : rest.takeWhile Char.isDigit = []) :
    scan_digits negative (ds ++ rest) =
      some ((if negative then G_MAXUINT_SUCC - ds.foldl digit_value 0 % G_MAXUINT_SUCC
              else ds.foldl digit_value 0) % G_MAXUINT_SUCC, rest) := by
  unfold scan_digits
  simp only [takeWhile_append_of_all _ _ _ hall, hrest, List.append_nil,
    dropWhile_append_of_all _ _ _ hall, dropWhile_eq_self_of_takeWhile_nil _ _ hrest]
  rw [if_neg]
  simpa using hne

/-- The digit scan of a digit run followed by any text succeeds. -/
theorem scan_digits_complete (negative : Bool) (ds rest : List Char) (hne : ds ≠ [])
    (hall : ∀ c ∈ ds, c.isDigit = true) :
    ∃ v r, scan_digits negative (ds ++ rest) = some (v, r) := by
  unfold scan_digits
  simp only [takeWhile_append_of_all _ _ _ hall]
  rw [if_neg]
  · exact ⟨_, _, rfl⟩
  · intro h
    have hnil : ds ++ List.takeWhile Char.isDigit rest = [] := List.isEmpty_iff.mp h
    exact hne (List.append_eq_nil.mp hnil).1

/-- The head of a sign-and-digits text is not white space. -/
theorem dropWhile_isspace_sign_digits (sg ds rest : List Char)
    (hsg : sg = [] ∨ sg = ['+'] ∨ sg = ['-']) (hne : ds ≠ [])
    (hall : ∀ c ∈ ds, c.isDigit = true) :
    (sg ++ ds ++ rest).dropWhile isspace = sg ++ ds ++ rest := by
  rcases hsg with h | h | h
  · subst h
    cases ds with
    | nil => exact absurd rfl hne
    | cons d ds =>
      have hd := isspace_of_isDigit d (hall d (List.mem_cons_self d ds))
      simp [List.dropWhile_cons, hd]
  · subst h
    have hd : isspace '+' = false := by decide
    simp [List.dropWhile_cons, hd]
  · subst h
    have hd : isspace '-' = false := by decide
    simp [List.dropWhile_cons, hd]

/-- The scan of a sign-and-digits text goes to the digit scan after the sign. -/
theorem scan_unsigned_field (ws sg ds rest : List Char)
    (hws : ∀ c ∈ ws, isspace c = true)
    (hsg : sg = [] ∨ sg = ['+'] ∨ sg = ['-']) (hne : ds ≠ [])
    (hall : ∀ c ∈ ds, c.isDigit = true) :
    scan_unsigned (ws ++ (sg ++ ds) ++ rest) = scan_digits (sg == ['-']) (ds ++ rest) := by
  have hdrop : (ws ++ (sg ++ ds) ++ rest).dropWhile isspace = sg ++ ds ++ rest := by
    rw [List.append_assoc, dropWhile_append_of_all _ _ _ hws]
    exact dropWhile_isspace_sign_digits sg ds rest hsg hne hall
  unfold scan_unsigned
  rw [hdrop]
  rcases hsg with h | h | h
  · subst h
    cases ds with
    | nil => exact absurd rfl hne
    | cons d ds =>
      have hd : d.isDigit = true := hall d (List.mem_cons_self d ds)
      have h1 : d ≠ '-' := by
        intro e; rw [e] at hd; exact absurd hd (by decide)
      have h2 : d ≠ '+' := by
        intro e; rw [e] at hd; exact absurd hd (by decide)
      simp only [List.nil_append, List.cons_append]
      split
      · rename_i heq
        simp only [List.cons.injEq] at heq
        exact absurd heq.1 h1
      · rename_i heq
        simp only [List.cons.injEq] at heq
        exact absurd heq.1 h2
      · rfl
  · subst h
    rfl
  · subst h
    rfl

/-- When both variables are assigned, the two conversions succeeded around the
character `x` and the variables hold their values. -/
theorem sscanf_result_two_inv (str : List Char) (width height : Nat)
    (h : (sscanf_u_x_u str width height).result = 2) :
    ∃ v1 rest v2 r2, scan_unsigned str = some (v1, 'x' :: rest) ∧
      scan_unsigned rest = some (v2, r2) ∧
      sscanf_u_x_u str width height = { result := 2, width := v1, height := v2 } := by
  cases h1 : scan_unsigned str with
  | none =>
    simp only [sscanf_u_x_u, h1] at h
    split at h <;> simp at h
  | some p =>
    obtain ⟨v1, rest⟩ := p
    by_cases hx : rest.head? = some 'x'
    · cases rest with
      | nil => simp at hx
      | cons c rest =>
        have hc : c = 'x' := by simpa using hx
        subst hc
        cases h2 : scan_unsigned rest with
        | none => simp [sscanf_u_x_u, h1, h2] at h
        | some q =>
          obtain ⟨v2, r2⟩ := q
          exact ⟨v1, rest, v2, r2, rfl, h2, by simp [sscanf_u_x_u, h1, h2]⟩
    · simp [sscanf_u_x_u, h1, hx] at h

/-- Both variables are assigned exactly on the strings of the shape
number, `x`, number, further text. -/
theorem sscanf_result_two_iff (str : List Char) (width height : Nat) :
    (sscanf_u_x_u str width height).result = 2 ↔ ResolutionShape str := by
  constructor
  · intro h
    obtain ⟨v1, rest, v2, r2, h1, h2, _⟩ := sscanf_result_two_inv str width height h
    obtain ⟨f1, hf1, e1⟩ := scan_unsigned_sound _ _ _ h1
    obtain ⟨f2, hf2, e2⟩ := scan_unsigned_sound _ _ _ h2
    exact ⟨f1, f2, r2, by rw [e1, e2], hf1, hf2⟩
  · rintro ⟨f1, f2, rest, hstr, ⟨ws1, sg1, ds1, e1, hws1, hsg1, hne1, hall1⟩,
      ⟨ws2, sg2, ds2, e2, hws2, hsg2, hne2, hall2⟩⟩
    have hx : ('x' :: (f2 ++ rest)).takeWhile Char.isDigit = [] :=
      takeWhile_isDigit_of_head _ _ (by decide)
    obtain ⟨v1, h1⟩ : ∃ v1, scan_unsigned str = some (v1, 'x' :: (f2 ++ rest)) := by
      rw [hstr, e1, scan_unsigned_field ws1 sg1 ds1 _ hws1 hsg1 hne1 hall1]
      exact ⟨_, scan_digits_exact _ ds1 _ hne1 hall1 hx⟩
    obtain ⟨v2, r2, h2⟩ := scan_digits_complete (sg2 == ['-']) ds2 rest hne2 hall2
    have h2 : scan_unsigned (f2 ++ rest) = some (v2, r2) := by
      rw [e2, scan_unsigned_field ws2 sg2 ds2 _ hws2 hsg2 hne2 hall2]
      exact h2
    simp [sscanf_u_x_u, h1, h2]

/-- The outcome of setting the output-resolution property in terms of the scan. -/
theorem set_property_resolution (s : GstFaceTracker) (str : String) :
    gst_facetracker_set_property s PROP_OUTPUT_RESOLUTION str =
      if (sscanf_u_x_u str.data s.output_width s.output_height).result = 2 then
        .returned
          { s with
            output_resolution_str := some str
            output_width := (sscanf_u_x_u str.data s.output_width s.output_height).width
            output_height := (sscanf_u_x_u str.data s.output_width s.output_height).height }
      else .aborted := by
  unfold gst_facetracker_set_property
  rw [if_pos rfl]

theorem scan_digits_lt (negative : Bool) (input : List Char) (v : Nat) (rest : List Char)
    (h : scan_digits negative input = some (v, rest)) : v < G_MAXUINT_SUCC := by
  unfold scan_digits at h
  simp only at h
  split at h
  · exact absurd h (by simp)
  · simp only [Option.some.injEq, Prod.mk.injEq] at h
    rw [← h.1]
    exact Nat.mod_lt _ (by decide)

theorem scan_unsigned_lt (input : List Char) (v : Nat) (rest : List Char)
    (h : scan_unsigned input = some (v, rest)) : v < G_MAXUINT_SUCC := by
  unfold scan_unsigned at h
  split at h <;> exact scan_digits_lt _ _ _ _ h

/-- When both variables are assigned, both hold `guint` values. -/
theorem sscanf_result_two_lt (str : List Char) (width height : Nat)
    (h : (sscanf_u_x_u str width height).result = 2) :
    (sscanf_u_x_u str width height).width < G_MAXUINT_SUCC ∧
      (sscanf_u_x_u str width height).height < G_MAXUINT_SUCC := by
  obtain ⟨v1, rest, v2, r2, h1, h2, e⟩ := sscanf_result_two_inv str width height h
  rw [e]
  exact ⟨scan_unsigned_lt _ _ _ h1, scan_unsigned_lt _ _ _ h2⟩

theorem digitChar_isDigit : ∀ k < 10, (Nat.digitChar k).isDigit = true ∧
    (Nat.digitChar k).toNat - 48 = k := by
  decide

theorem toDigitsCore_all_digits (fuel : Nat) : ∀ (n : Nat) (ds : List Char),
    (∀ c ∈ ds, c.isDigit = true) →
    ∀ c ∈ Nat.toDigitsCore 10 fuel n ds, c.isDigit = true := by
  induction fuel with
  | zero => intro n ds h c hc; exact h c hc
  | succ fuel ih =>
    intro n ds h
    have hd : (Nat.digitChar (n % 10)).isDigit = true :=
      (digitChar_isDigit (n % 10) (Nat.mod_lt n (by decide))).1
    have hcons : ∀ c ∈ Nat.digitChar (n % 10) :: ds, c.isDigit = true := by
      intro c hc
      rcases List.mem_cons.mp hc with e | e
      · rw [e]; exact hd
      · exact h c e
    simp only [Nat.toDigitsCore]
    split
    · exact hcons
    · exact ih (n / 10) _ hcons

theorem toDigitsCore_ne_nil (fuel : Nat) : ∀ (n : Nat) (ds : List Char),
    ds ≠ [] → Nat.toDigitsCore 10 fuel n ds ≠ [] := by
  induction fuel with
  | zero => intro n ds h; exact h
  | succ fuel ih =>
    intro n ds _
    simp only [Nat.toDigitsCore]
    split
    · exact List.cons_ne_nil _ _
    · exact ih (n / 10) _ (List.cons_ne_nil _ _)

theorem toDigitsCore_value (fuel : Nat) : ∀ (n : Nat) (ds : List Char), n < fuel →
    (Nat.toDigitsCore 10 fuel n ds).foldl digit_value 0 = ds.foldl digit_value n := by
  induction fuel with
  | zero => intro n ds h; exact absurd h (Nat.not_lt_zero n)
  | succ fuel ih =>
    intro n ds hn
    have hd : (Nat.digitChar (n % 10)).toNat - 48 = n % 10 :=
      (digitChar_isDigit (n % 10) (Nat.mod_lt n (by decide))).2
    simp only [Nat.toDigitsCore]
    split
    · rename_i hz
      simp only [List.foldl_cons, digit_value, hd]
      have : 10 * 0 + n % 10 = n := by omega
      rw [this]
    · rename_i hz
      rw [ih (n / 10) _ (by omega)]
      simp only [List.foldl_cons, digit_value, hd]
      have : 10 * (n / 10) + n % 10 = n := by omega
      rw [this]

theorem toDigits_all_digits (n : Nat) : ∀ c ∈ Nat.toDigits 10 n, c.isDigit = true :=
  toDigitsCore_all_digits (n + 1) n [] (fun _ hc => absurd hc (List.not_mem_nil _))

theorem toDigits_ne_nil (n : Nat) : Nat.toDigits 10 n ≠ [] := by
  unfold Nat.toDigits
  simp only [Nat.toDigitsCore]
  split
  · exact List.cons_ne_nil _ _
  · exact toDigitsCore_ne_nil n _ _ (List.cons_ne_nil _ _)

theorem toDigits_value (n : Nat) : (Nat.toDigits 10 n).foldl digit_value 0 = n :=
  toDigitsCore_value (n + 1) n [] (Nat.lt_succ_self n)

theorem resolution_string_data (W H : Nat) :
    (resolution_string W H).data = Nat.toDigits 10 W ++ 'x' :: Nat.toDigits 10 H := by
  simp [resolution_string, toString, Nat.repr, List.asString, String.data_append]

/-- The `%u` conversion of the decimal digits of `n` followed by text that does not
start with a digit reads `n` (stored modulo `2^32`) and stops at that text. -/
theorem scan_unsigned_toDigits (n : Nat) (rest : List Char)
    (hrest : rest.takeWhile Char.isDigit = []) :
    scan_unsigned (Nat.toDigits 10 n ++ rest) = some (n % G_MAXUINT_SUCC, rest) := by
  have h := scan_unsigned_field [] [] (Nat.toDigits 10 n) rest
    (fun _ hc => absurd hc (List.not_mem_nil _)) (Or.inl rfl)
    (toDigits_ne_nil n) (toDigits_all_digits n)
  simp only [List.nil_append] at h
  rw [h, scan_digits_exact _ _ _ (toDigits_ne_nil n) (toDigits_all_digits n) hrest,
    toDigits_value]
  rfl

/-- The scan of the resolution string `WxH`. -/
theorem sscanf_resolution_string (W H width height : Nat) :
    sscanf_u_x_u (resolution_string W H).data width height =
      { result := 2, width := W % G_MAXUINT_SUCC, height := H % G_MAXUINT_SUCC } := by
  have h1 := scan_unsigned_toDigits W ('x' :: Nat.toDigits 10 H)
    (takeWhile_isDigit_of_head _ _ (by decide))
  have h2 := scan_unsigned_toDigits H [] rfl
  simp only [List.append_nil] at h2
  simp [sscanf_u_x_u, resolution_string_data, h1, h2]

theorem MIN_eq_min (a b : ℚ) : MIN a b = min a b := by
  unfold MIN
  rcases lt_or_le a b with h | h
  · rw [if_pos h, min_eq_left (le_of_lt h)]
  · rw [if_neg (not_lt.mpr h), min_eq_right h]

theorem MAX_eq_max (a b : ℚ) : MAX a b = max a b := by
  unfold MAX
  rcases lt_or_le b a with h | h
  · rw [if_pos h, max_eq_left (le_of_lt h)]
  · rw [if_neg (not_lt.mpr h), max_eq_right h]

/-- The rectangle of an object depends on the tracker only through the output size
and the two limits. -/
theorem obj_src_rect_congr (s1 s2 : GstFaceTracker) (d : NvOSD_RectParams)
    (how : s1.output_width = s2.output_width) (hoh : s1.output_height = s2.output_height)
    (hl : s1.left_upper_limit = s2.left_upper_limit)
    (ht : s1.top_upper_limit = s2.top_upper_limit) :
    obj_src_rect s1 d = obj_src_rect s2 d := by
  unfold obj_src_rect
  rw [how, hoh, hl, ht]

/-! ## The claims on the property setter and on the exact update semantics -/

/-- C11 (resolution string parse). For all `W` and `H` below `2^32` (positive or
zero), setting the output-resolution property to the string made of the decimal
digits of `W`, the character `x` and the decimal digits of `H` returns normally,
stores the string and sets `output_width = W` and `output_height = H`, leaving
every other field as it was. -/
theorem C11_resolution_string_parse (s : GstFaceTracker) (W H : Nat)
    (hW : W < G_MAXUINT_SUCC) (hH : H < G_MAXUINT_SUCC) :
    gst_facetracker_set_property s PROP_OUTPUT_RESOLUTION (resolution_string W H) =
      .returned
        { s with
          output_resolution_str := some (resolution_string W H)
          output_width := W
          output_height := H } := by
  rw [set_property_resolution, sscanf_resolution_string, Nat.mod_eq_of_lt hW,
    Nat.mod_eq_of_lt hH]
  rfl

/-- C11, the example of the claim: `1280x720` gives 1280 and 720. -/
theorem C11_resolution_string_parse_witness :
    resolution_string 1280 720 = "1280x720" ∧
    gst_facetracker_set_property (gst_facetracker_init zeroed) PROP_OUTPUT_RESOLUTION
        (resolution_string 1280 720) =
      .returned
        { gst_facetracker_init zeroed with
          output_resolution_str := some (resolution_string 1280 720)
          output_width := 1280
          output_height := 720 } :=
  ⟨by decide,
    C11_resolution_string_parse (gst_facetracker_init zeroed) 1280 720 (by decide) (by decide)⟩

/-- C12, counterexample: on the strings `1920`, `abc` and `x1080` the property
setter does not come back with an error, it ends the process through `abort ()`. -/
theorem C12_malformed_resolution_counterexample :
    gst_facetracker_set_property (gst_facetracker_init zeroed) PROP_OUTPUT_RESOLUTION "1920"
      = .aborted ∧
    gst_facetracker_set_property (gst_facetracker_init zeroed) PROP_OUTPUT_RESOLUTION "abc"
      = .aborted ∧
    gst_facetracker_set_property (gst_facetracker_init zeroed) PROP_OUTPUT_RESOLUTION "x1080"
      = .aborted := by
  decide

/-- C12 (malformed resolution, amended). Setting the output-resolution property ends
the process through `abort ()` exactly for the strings that are not of the shape
white space, optional sign, digits, `x`, white space, optional sign, digits, any
further text; there is no third outcome, every other string is accepted. -/
theorem C12_malformed_resolution_aborts (s : GstFaceTracker) (str : String) :
    (gst_facetracker_set_property s PROP_OUTPUT_RESOLUTION str = .aborted ↔
      ¬ ResolutionShape str.data) ∧
    (gst_facetracker_set_property s PROP_OUTPUT_RESOLUTION str = .aborted ∨
      ∃ s1, gst_facetracker_set_property s PROP_OUTPUT_RESOLUTION str = .returned s1) := by
  rw [set_property_resolution, ← sscanf_result_two_iff str.data s.output_width s.output_height]
  by_cases h : (sscanf_u_x_u str.data s.output_width s.output_height).result = 2
  · rw [if_pos h]
    exact ⟨Iff.intro (fun e => nomatch e) (fun hn => absurd h hn), Or.inr ⟨_, rfl⟩⟩
  · rw [if_neg h]
    exact ⟨Iff.intro (fun _ => h) (fun _ => rfl), Or.inl rfl⟩

/-- C13, counterexample: the resolution `0x1080` is accepted and leaves
`output_width = 0`. -/
theorem C13_positive_dimensions_counterexample :
    ∃ s1, gst_facetracker_set_property (gst_facetracker_init zeroed) PROP_OUTPUT_RESOLUTION
        "0x1080" = .returned s1 ∧
      s1.output_width = 0 ∧ s1.output_height = 1080 ∧ ¬ (0 < s1.output_width) :=
  ⟨{ gst_facetracker_init zeroed with
      output_resolution_str := some "0x1080"
      output_width := 0
      output_height := 1080 }, by decide, rfl, rfl, by decide⟩

/-- C13 (accepted dimensions, amended). Whenever setting the output-resolution
property returns, the resulting `output_width` and `output_height` are `guint`
values (below `2^32`); nothing requires them to be positive: from every state the
resolutions `0x1080` and `1920x0` are accepted and store the zero. -/
theorem C13_accepted_dimensions (s s1 : GstFaceTracker) (str : String)
    (h : gst_facetracker_set_property s PROP_OUTPUT_RESOLUTION str = .returned s1) :
    s1.output_width < G_MAXUINT_SUCC ∧ s1.output_height < G_MAXUINT_SUCC ∧
    gst_facetracker_set_property s PROP_OUTPUT_RESOLUTION (resolution_string 0 1080) =
      .returned
        { s with
          output_resolution_str := some (resolution_string 0 1080)
          output_width := 0
          output_height := 1080 } ∧
    gst_facetracker_set_property s PROP_OUTPUT_RESOLUTION (resolution_string 1920 0) =
      .returned
        { s with
          output_resolution_str := some (resolution_string 1920 0)
          output_width := 1920
          output_height := 0 } := by
  refine ⟨?_, ?_, ?_, ?_⟩
  · rw [set_property_resolution] at h
    split at h
    · rename_i h2
      have hlt := sscanf_result_two_lt _ _ _ h2
      simp only [SetPropertyOutcome.returned.injEq] at h
      rw [← h]
      exact hlt.1
    · cases h
  · rw [set_property_resolution] at h
    split at h
    · rename_i h2
      have hlt := sscanf_result_two_lt _ _ _ h2
      simp only [SetPropertyOutcome.returned.injEq] at h
      rw [← h]
      exact hlt.2
    · cases h
  · rw [set_property_resolution, sscanf_resolution_string]
    rfl
  · rw [set_property_resolution, sscanf_resolution_string]
    rfl

/-- C13, instance: the default element and the string `1920x0`. -/
theorem C13_accepted_dimensions_witness :
    resolution_string 0 1080 = "0x1080" ∧ resolution_string 1920 0 = "1920x0" ∧
    (1920 : Nat) < G_MAXUINT_SUCC ∧ (0 : Nat) < G_MAXUINT_SUCC ∧
    gst_facetracker_set_property (gst_facetracker_init zeroed) PROP_OUTPUT_RESOLUTION
        (resolution_string 0 1080) =
      .returned
        { gst_facetracker_init zeroed with
          output_resolution_str := some (resolution_string 0 1080)
          output_width := 0
          output_height := 1080 } ∧
    gst_facetracker_set_property (gst_facetracker_init zeroed) PROP_OUTPUT_RESOLUTION
        (resolution_string 1920 0) =
      .returned
        { gst_facetracker_init zeroed with
          output_resolution_str := some (resolution_string 1920 0)
          output_width := 1920
          output_height := 0 } :=
  ⟨by decide, by decide,
    C13_accepted_dimensions (gst_facetracker_init zeroed)
      { gst_facetracker_init zeroed with
        output_resolution_str := some "1920x0"
        output_width := 1920
        output_height := 0 } "1920x0" (by decide)⟩

/-- C15 (snap is independent of history). Two tracker states that agree on the
output size and on the two limits emit the same rectangle for every non-empty
detection list, whatever their `prev_rect`, `frame_num` and other fields are. -/
theorem C15_snap_independent_of_history (s1 s2 : GstFaceTracker)
    (ds : List NvOSD_RectParams) (hne : ds ≠ [])
    (how : s1.output_width = s2.output_width) (hoh : s1.output_height = s2.output_height)
    (hl : s1.left_upper_limit = s2.left_upper_limit)
    (ht : s1.top_upper_limit = s2.top_upper_limit) :
    ∃ r, (update s1 ds).src_rect = some r ∧ (update s2 ds).src_rect = some r := by
  refine ⟨obj_src_rect s1 (ds.getLast hne), ?_, ?_⟩
  · rw [update_src_rect, obj_loop_of_ne_nil s1 _ ds hne]
  · rw [update_src_rect, obj_loop_of_ne_nil s2 _ ds hne,
      obj_src_rect_congr s1 s2 _ how hoh hl ht]

/-- C15, instance: the started default element before its first frame and the same
element after a frame that moved the crop to `{990, 510}`. -/
theorem C15_snap_independent_of_history_witness :
    (gst_facetracker_start (gst_facetracker_init zeroed)).prev_rect ≠
      (update (gst_facetracker_start (gst_facetracker_init zeroed))
        [{ left := 1900, top := 1000, width := 100, height := 100 }]).facetracker.prev_rect ∧
    ∃ r, (update (gst_facetracker_start (gst_facetracker_init zeroed))
        [{ left := 10, top := 20, width := 30, height := 40 }]).src_rect = some r ∧
      (update
        (update (gst_facetracker_start (gst_facetracker_init zeroed))
          [{ left := 1900, top := 1000, width := 100, height := 100 }]).facetracker
        [{ left := 10, top := 20, width := 30, height := 40 }]).src_rect = some r :=
  ⟨by rw [scenario_src_rect]; decide,
    C15_snap_independent_of_history
      (gst_facetracker_start (gst_facetracker_init zeroed))
      (update (gst_facetracker_start (gst_facetracker_init zeroed))
        [{ left := 1900, top := 1000, width := 100, height := 100 }]).facetracker
      [{ left := 10, top := 20, width := 30, height := 40 }]
      (List.cons_ne_nil _ _) rfl rfl rfl rfl⟩

/-- C17 (setting the resolution does not refresh derived state). Whenever setting
the output-resolution property to a string returns, the new state is the old one
with `output_width`, `output_height` and `output_resolution_str` replaced: the two
limits, `prev_rect`, `frame_num`, the input size and the memory features are
unchanged. -/
theorem C17_set_property_frame (s s1 : GstFaceTracker) (str : String)
    (h : gst_facetracker_set_property s PROP_OUTPUT_RESOLUTION str = .returned s1) :
    s1 = { s with
           output_width := s1.output_width
           output_height := s1.output_height
           output_resolution_str := some str } ∧
    s1.left_upper_limit = s.left_upper_limit ∧ s1.top_upper_limit = s.top_upper_limit ∧
    s1.prev_rect = s.prev_rect ∧ s1.frame_num = s.frame_num ∧
    s1.input_width = s.input_width ∧ s1.input_height = s.input_height := by
  rw [set_property_resolution] at h
  split at h
  · simp only [SetPropertyOutcome.returned.injEq] at h
    subst h
    exact ⟨rfl, rfl, rfl, rfl, rfl, rfl, rfl⟩
  · cases h

/-- C17, instance: the started default element (limits 1920 and 1080) set to
`1280x720` keeps the limits 1920 and 1080 of its start. -/
theorem C17_set_property_frame_witness :
    ∃ s1, gst_facetracker_set_property (gst_facetracker_start (gst_facetracker_init zeroed))
        PROP_OUTPUT_RESOLUTION "1280x720" = .returned s1 ∧
      s1.output_width = 1280 ∧ s1.output_height = 720 ∧
      s1.left_upper_limit = 1920 ∧ s1.top_upper_limit = 1080 ∧
      s1.prev_rect = (gst_facetracker_start (gst_facetracker_init zeroed)).prev_rect ∧
      s1.frame_num = 0 ∧ s1.input_width = 3840 ∧ s1.input_height = 2160 :=
  have hset : gst_facetracker_set_property (gst_facetracker_start (gst_facetracker_init zeroed))
      PROP_OUTPUT_RESOLUTION "1280x720" =
      .returned
        { gst_facetracker_start (gst_facetracker_init zeroed) with
          output_resolution_str := some "1280x720"
          output_width := 1280
          output_height := 720 } := by decide
  have hframe := C17_set_property_frame _ _ _ hset
  ⟨_, hset, rfl, rfl, hframe.2.1, hframe.2.2.1, hframe.2.2.2.1, hframe.2.2.2.2.1,
    hframe.2.2.2.2.2.1, hframe.2.2.2.2.2.2⟩

/-- C18 (transform failure is atomic). The transform handler returns
`GST_FLOW_ERROR` exactly when mapping the input buffer or mapping the output
buffer fails, and then the element is left as it was and no rectangle is handed
to the crop. When both mappings succeed it returns `GST_FLOW_OK`, stores the new
rectangle in `prev_rect` and adds one to `frame_num` (a `guint`, so modulo `2^32`),
whether or not the crop reports an error. -/
theorem C18_transform_failure_atomic (s : GstFaceTracker) (inmap_ok outmap_ok : Bool)
    (frame_meta_list : List (List NvOSD_RectParams)) (transform_ok : Bool) :
    ((gst_facetracker_transform s inmap_ok outmap_ok frame_meta_list transform_ok).ret
        = .GST_FLOW_ERROR ↔ (inmap_ok = false ∨ outmap_ok = false)) ∧
    gst_facetracker_transform s false outmap_ok frame_meta_list transform_ok =
      { ret := .GST_FLOW_ERROR, facetracker := s, src_rect := none, printerr := false } ∧
    gst_facetracker_transform s true false frame_meta_list transform_ok =
      { ret := .GST_FLOW_ERROR, facetracker := s, src_rect := none, printerr := false } ∧
    gst_facetracker_transform s true true frame_meta_list transform_ok =
      { ret := .GST_FLOW_OK
        facetracker :=
          { s with
            prev_rect := frame_loop s
              { left := s.prev_rect.left, top := s.prev_rect.top
                width := s.output_width, height := s.output_height } frame_meta_list
            frame_num := (s.frame_num + 1) % G_MAXUINT_SUCC }
        src_rect := some (frame_loop s
              { left := s.prev_rect.left, top := s.prev_rect.top
                width := s.output_width, height := s.output_height } frame_meta_list)
        printerr := !transform_ok } := by
  refine ⟨?_, ?_, rfl, rfl⟩
  · cases inmap_ok <;> cases outmap_ok <;> simp [gst_facetracker_transform]
  · cases outmap_ok <;> rfl


/-! ## Facts about binary32 rounding -/

theorem round_half_even_floor_le (t : ℚ) : ⌊t⌋ ≤ round_half_even t := by
  unfold round_half_even
  split_ifs <;> omega

theorem round_half_even_le_floor_add_one (t : ℚ) : round_half_even t ≤ ⌊t⌋ + 1 := by
  unfold round_half_even
  split_ifs <;> omega

theorem round_half_even_intCast (n : ℤ) : round_half_even (n : ℚ) = n := by
  unfold round_half_even
  simp

theorem round_half_even_mono {t u : ℚ} (h : t ≤ u) : round_half_even t ≤ round_half_even u := by
  have hfl : ⌊t⌋ ≤ ⌊u⌋ := Int.floor_mono h
  rcases lt_or_eq_of_le hfl with hlt | heq
  · calc round_half_even t ≤ ⌊t⌋ + 1 := round_half_even_le_floor_add_one t
      _ ≤ ⌊u⌋ := hlt
      _ ≤ round_half_even u := round_half_even_floor_le u
  · unfold round_half_even
    rw [heq]
    have hfrac : t - ⌊u⌋ ≤ u - ⌊u⌋ := by linarith
    split_ifs <;> first | omega | linarith

theorem round_half_even_le_of_le {t : ℚ} {n : ℤ} (h : t ≤ n) : round_half_even t ≤ n := by
  have := round_half_even_mono h
  rwa [round_half_even_intCast] at this

theorem le_round_half_even_of_le {t : ℚ} {n : ℤ} (h : (n : ℚ) ≤ t) : n ≤ round_half_even t := by
  have := round_half_even_mono h
  rwa [round_half_even_intCast] at this

theorem two_zpow_pos (e : ℤ) : (0 : ℚ) < 2 ^ e := zpow_pos (by norm_num) e

/-- The grid exponent bounds the magnitude from above, and from below on the
normal range. -/
theorem binary32_exponent_spec (x : ℚ) (hx : x ≠ 0) :
    |x| < 2 ^ (binary32_exponent x + 24) ∧
      (-149 < binary32_exponent x → (2 : ℚ) ^ (binary32_exponent x + 23) ≤ |x|) := by
  have hpos : 0 < |x| := abs_pos.mpr hx
  have h1 : ((2 : ℕ) : ℚ) ^ Int.log 2 |x| ≤ |x| := Int.zpow_log_le_self (by norm_num) hpos
  have h2 : |x| < ((2 : ℕ) : ℚ) ^ (Int.log 2 |x| + 1) :=
    Int.lt_zpow_succ_log_self (by norm_num) |x|
  simp only [Nat.cast_ofNat] at h1 h2
  unfold binary32_exponent
  constructor
  · refine lt_of_lt_of_le h2 (zpow_le_zpow_right₀ (by norm_num) ?_)
    have := le_max_left (Int.log 2 |x| - 23) (-149)
    omega
  · intro hgt
    have he : max (Int.log 2 |x| - 23) (-149) = Int.log 2 |x| - 23 := by
      rcases max_choice (Int.log 2 |x| - 23) (-149) with h | h
      · exact h
      · rw [h] at hgt; exact absurd hgt (lt_irrefl _)
    rw [he]
    have : Int.log 2 |x| - 23 + 23 = Int.log 2 |x| := by ring
    rw [this]
    exact h1

theorem binary32_exponent_mono {x y : ℚ} (hx : x ≠ 0) (h : |x| ≤ |y|) :
    binary32_exponent x ≤ binary32_exponent y := by
  unfold binary32_exponent
  have := Int.log_mono_right (b := 2) (abs_pos.mpr hx) h
  exact max_le_max (by omega) (le_refl _)

theorem binary32_zero : binary32 0 = 0 := by
  unfold binary32
  simp [round_half_even]

theorem binary32_nonneg {x : ℚ} (h : 0 ≤ x) : 0 ≤ binary32 x := by
  unfold binary32
  have hp := two_zpow_pos (binary32_exponent x)
  have hq : ((0 : ℤ) : ℚ) ≤ x / 2 ^ binary32_exponent x := by
    simpa using div_nonneg h (le_of_lt hp)
  have := le_round_half_even_of_le hq
  exact mul_nonneg (by exact_mod_cast this) (le_of_lt hp)

theorem binary32_nonpos {x : ℚ} (h : x ≤ 0) : binary32 x ≤ 0 := by
  unfold binary32
  have hp := two_zpow_pos (binary32_exponent x)
  have hq : x / 2 ^ binary32_exponent x ≤ ((0 : ℤ) : ℚ) := by
    simpa using div_nonpos_of_nonpos_of_nonneg h (le_of_lt hp)
  have := round_half_even_le_of_le hq
  exact mul_nonpos_of_nonpos_of_nonneg (by exact_mod_cast this) (le_of_lt hp)

/-- On one grid the rounding keeps the order. -/
theorem binary32_mono_same {x y : ℚ} (h : x ≤ y)
    (he : binary32_exponent x = binary32_exponent y) : binary32 x ≤ binary32 y := by
  unfold binary32
  rw [he]
  have hp := two_zpow_pos (binary32_exponent y)
  have hq : x / 2 ^ binary32_exponent y ≤ y / 2 ^ binary32_exponent y :=
    div_le_div_of_nonneg_right h (le_of_lt hp)
  have := round_half_even_mono hq
  exact mul_le_mul_of_nonneg_right (by exact_mod_cast this) (le_of_lt hp)

/-- A value of magnitude below `2 ^ (e + 24)` rounds, on the grid `2 ^ e`, to a
value of magnitude at most `2 ^ (e + 24)`. -/
theorem binary32_abs_le (x : ℚ) (hx : x ≠ 0) :
    binary32 x ≤ 2 ^ (binary32_exponent x + 24) ∧
      -(2 : ℚ) ^ (binary32_exponent x + 24) ≤ binary32 x := by
  have hp := two_zpow_pos (binary32_exponent x)
  have hlt := (binary32_exponent_spec x hx).1
  have hsplit : (2 : ℚ) ^ (binary32_exponent x + 24) = 2 ^ (24 : ℕ) * 2 ^ binary32_exponent x := by
    rw [zpow_add₀ (by norm_num : (2 : ℚ) ≠ 0), mul_comm]
    norm_num
  have habs := abs_lt.mp hlt
  unfold binary32
  rw [hsplit] at habs ⊢
  constructor
  · have hq : x / 2 ^ binary32_exponent x ≤ (((2 : ℤ) ^ (24 : ℕ) : ℤ) : ℚ) := by
      rw [div_le_iff₀ hp]
      push_cast
      exact le_of_lt habs.2
    have := round_half_even_le_of_le hq
    have hc : (round_half_even (x / 2 ^ binary32_exponent x) : ℚ) ≤ 2 ^ (24 : ℕ) := by
      exact_mod_cast this
    exact mul_le_mul_of_nonneg_right hc (le_of_lt hp)
  · have hq : ((-(2 : ℤ) ^ (24 : ℕ) : ℤ) : ℚ) ≤ x / 2 ^ binary32_exponent x := by
      rw [le_div_iff₀ hp]
      push_cast
      linarith [habs.1]
    have := le_round_half_even_of_le hq
    have hc : -(2 : ℚ) ^ (24 : ℕ) ≤ (round_half_even (x / 2 ^ binary32_exponent x) : ℚ) := by
      exact_mod_cast this
    have := mul_le_mul_of_nonneg_right hc (le_of_lt hp)
    linarith

/-- On the normal range a value rounds to a value of magnitude at least
`2 ^ (e + 23)`. -/
theorem binary32_abs_ge (x : ℚ) (hx : x ≠ 0) (hn : -149 < binary32_exponent x) :
    (0 < x → (2 : ℚ) ^ (binary32_exponent x + 23) ≤ binary32 x) ∧
      (x < 0 → binary32 x ≤ -(2 : ℚ) ^ (binary32_exponent x + 23)) := by
  have hp := two_zpow_pos (binary32_exponent x)
  have hge := (binary32_exponent_spec x hx).2 hn
  have hsplit : (2 : ℚ) ^ (binary32_exponent x + 23) = 2 ^ (23 : ℕ) * 2 ^ binary32_exponent x := by
    rw [zpow_add₀ (by norm_num : (2 : ℚ) ≠ 0), mul_comm]
    norm_num
  unfold binary32
  rw [hsplit] at hge ⊢
  constructor
  · intro hpos
    rw [abs_of_pos hpos] at hge
    have hq : ((((2 : ℤ) ^ (23 : ℕ) : ℤ)) : ℚ) ≤ x / 2 ^ binary32_exponent x := by
      rw [le_div_iff₀ hp]
      push_cast
      exact hge
    have := le_round_half_even_of_le hq
    have hc : (2 : ℚ) ^ (23 : ℕ) ≤ (round_half_even (x / 2 ^ binary32_exponent x) : ℚ) := by
      exact_mod_cast this
    exact mul_le_mul_of_nonneg_right hc (le_of_lt hp)
  · intro hneg
    rw [abs_of_neg hneg] at hge
    have hq : x / 2 ^ binary32_exponent x ≤ ((-(2 : ℤ) ^ (23 : ℕ) : ℤ) : ℚ) := by
      rw [div_le_iff₀ hp]
      push_cast
      linarith
    have := round_half_even_le_of_le hq
    have hc : (round_half_even (x / 2 ^ binary32_exponent x) : ℚ) ≤ -(2 : ℚ) ^ (23 : ℕ) := by
      exact_mod_cast this
    have := mul_le_mul_of_nonneg_right hc (le_of_lt hp)
    linarith

/-- Rounding to binary32 keeps the order. -/
theorem binary32_mono {x y : ℚ} (h : x ≤ y) : binary32 x ≤ binary32 y := by
  rcases le_or_lt x 0 with hx0 | hx0
  · rcases le_or_lt 0 y with hy0 | hy0
    · exact le_trans (binary32_nonpos hx0) (binary32_nonneg hy0)
    · -- both negative
      have hxne : x ≠ 0 := ne_of_lt (lt_of_le_of_lt h hy0)
      have hyne : y ≠ 0 := ne_of_lt hy0
      have habs : |y| ≤ |x| := by
        rw [abs_of_neg hy0, abs_of_neg (lt_of_le_of_lt h hy0)]
        linarith
      have hexp := binary32_exponent_mono hyne habs
      rcases lt_or_eq_of_le hexp with hlt | heq
      · have hxn : -149 < binary32_exponent x := by
          have : -149 ≤ binary32_exponent y := le_max_right _ _
          omega
        have h1 := (binary32_abs_ge x hxne hxn).2 (lt_of_le_of_lt h hy0)
        have h2 := (binary32_abs_le y hyne).2
        have h3 : (2 : ℚ) ^ (binary32_exponent y + 24) ≤ 2 ^ (binary32_exponent x + 23) :=
          zpow_le_zpow_right₀ (by norm_num) (by omega)
        linarith
      · exact binary32_mono_same h heq.symm
  · have hy0 : 0 < y := lt_of_lt_of_le hx0 h
    have hxne : x ≠ 0 := ne_of_gt hx0
    have hyne : y ≠ 0 := ne_of_gt hy0
    have habs : |x| ≤ |y| := by
      rw [abs_of_pos hx0, abs_of_pos hy0]
      exact h
    have hexp := binary32_exponent_mono hxne habs
    rcases lt_or_eq_of_le hexp with hlt | heq
    · have hyn : -149 < binary32_exponent y := by
        have : -149 ≤ binary32_exponent x := le_max_right _ _
        omega
      have h1 := (binary32_abs_ge y hyne hyn).1 hy0
      have h2 := (binary32_abs_le x hxne).1
      have h3 : (2 : ℚ) ^ (binary32_exponent x + 24) ≤ 2 ^ (binary32_exponent y + 23) :=
        zpow_le_zpow_right₀ (by norm_num) (by omega)
      linarith
    · exact binary32_mono_same h heq

/-- The grid exponent of a value whose binade is known. -/
theorem binary32_exponent_eq (x : ℚ) (k : ℤ) (hk : -126 ≤ k)
    (h1 : (2 : ℚ) ^ k ≤ |x|) (h2 : |x| < 2 ^ (k + 1)) : binary32_exponent x = k - 23 := by
  have hpos : 0 < |x| := lt_of_lt_of_le (two_zpow_pos k) h1
  have hl1 : k ≤ Int.log 2 |x| := by
    rw [← Int.zpow_le_iff_le_log (by norm_num) hpos]
    simpa using h1
  have hl2 : Int.log 2 |x| < k + 1 := by
    rw [← Int.lt_zpow_iff_log_lt (by norm_num) hpos]
    simpa using h2
  unfold binary32_exponent
  have : Int.log 2 |x| = k := by omega
  rw [this]
  exact max_eq_left (by omega)

/-- The rounding of a value whose binade is known. -/
theorem binary32_eval (x : ℚ) (k : ℤ) (hk : -126 ≤ k)
    (h1 : (2 : ℚ) ^ k ≤ |x|) (h2 : |x| < 2 ^ (k + 1)) :
    binary32 x = (round_half_even (x / 2 ^ (k - 23)) : ℚ) * 2 ^ (k - 23) := by
  unfold binary32
  rw [binary32_exponent_eq x k hk h1 h2]

/-- A value `m * 2 ^ j` with a significand below `2 ^ 24` and an exponent in the
binary32 range is a binary32 value: rounding leaves it as it is. -/
theorem binary32_dyadic (m j : ℤ) (hj : -149 ≤ j) (hm : |m| < 16777216) :
    binary32 ((m : ℚ) * 2 ^ j) = (m : ℚ) * 2 ^ j := by
  by_cases hm0 : m = 0
  · subst hm0
    simp [binary32_zero]
  have hx : (m : ℚ) * 2 ^ j ≠ 0 :=
    mul_ne_zero (by exact_mod_cast hm0) (ne_of_gt (two_zpow_pos j))
  have hpos : 0 < |(m : ℚ) * 2 ^ j| := abs_pos.mpr hx
  have habs : |(m : ℚ) * 2 ^ j| < 2 ^ (j + 24) := by
    rw [abs_mul, abs_of_pos (two_zpow_pos j), zpow_add₀ (by norm_num : (2 : ℚ) ≠ 0), mul_comm]
    have hmq : |(m : ℚ)| < 2 ^ (24 : ℤ) := by
      have : ((|m| : ℤ) : ℚ) < ((16777216 : ℤ) : ℚ) := by exact_mod_cast hm
      rw [Int.cast_abs] at this
      norm_num at this ⊢
      exact this
    exact mul_lt_mul_of_pos_left hmq (two_zpow_pos j)
  have hlog : Int.log 2 |(m : ℚ) * 2 ^ j| < j + 24 := by
    rw [← Int.lt_zpow_iff_log_lt (by norm_num) hpos]
    simpa using habs
  have he : binary32_exponent ((m : ℚ) * 2 ^ j) ≤ j := by
    unfold binary32_exponent
    exact max_le (by omega) hj
  unfold binary32
  generalize binary32_exponent ((m : ℚ) * 2 ^ j) = e at he
  obtain ⟨n, hn⟩ : ∃ n : ℕ, j = e + n := ⟨(j - e).toNat, by omega⟩
  have hp := two_zpow_pos e
  have hdiv : (m : ℚ) * 2 ^ j / 2 ^ e = ((m * 2 ^ n : ℤ) : ℚ) := by
    rw [hn, zpow_add₀ (by norm_num : (2 : ℚ) ≠ 0), zpow_natCast]
    push_cast
    field_simp
    ring
  rw [hdiv, round_half_even_intCast, ← hdiv]
  field_simp

theorem binary32_natCast (n : ℕ) (h : n ≤ 16777216) : binary32 (n : ℚ) = n := by
  rcases Nat.lt_or_ge n 16777216 with hlt | hge
  · have := binary32_dyadic (n : ℤ) 0 (by norm_num) (by
      rw [abs_of_nonneg (Int.ofNat_nonneg n)]; exact_mod_cast hlt)
    simpa using this
  · have hn : n = 16777216 := le_antisymm h hge
    subst hn
    have := binary32_dyadic 1 24 (by norm_num) (by norm_num)
    norm_num at this ⊢
    exact this

/-- A half-integer `m / 2` with `|m| < 2 ^ 24` is a binary32 value. -/
theorem binary32_half (m : ℤ) (hm : |m| < 16777216) : binary32 ((m : ℚ) / 2) = (m : ℚ) / 2 := by
  have := binary32_dyadic m (-1) (by norm_num) hm
  have e : (m : ℚ) * 2 ^ (-1 : ℤ) = (m : ℚ) / 2 := by
    rw [zpow_neg_one]; ring
  rwa [e] at this

/-- A natural number up to `2^32 - 129` converts to a `gfloat` below `2^32`. -/
theorem binary32_limit_lt (n : Nat) (h : n ≤ 4294967167) :
    binary32 (n : ℚ) < 4294967296 := by
  have hq : (n : ℚ) ≤ 4294967167 := by exact_mod_cast h
  have hmono := binary32_mono hq
  have hval : binary32 (4294967167 : ℚ) = 4294967040 := by
    rw [binary32_eval _ 31 (by norm_num) (by norm_num [abs_of_pos]) (by norm_num [abs_of_pos])]
    norm_num [round_half_even]
  rw [hval] at hmono
  exact lt_of_le_of_lt hmono (by norm_num)

/-- The cast of a clamped value is its floor when the upper clamp is below `2^32`. -/
theorem cast_clamp_eq_floor (lim x : ℚ) (h0 : 0 ≤ lim) (hlt : lim < 4294967296) :
    ((guint_of_gfloat (MIN lim (MAX 0 x)) : Nat) : ℤ) = ⌊min lim (max 0 x)⌋ := by
  rw [← MIN_eq_min, ← MAX_eq_max]
  have hv0 : 0 ≤ MIN lim (MAX 0 x) := MIN_nonneg h0 (MAX_zero_nonneg x)
  have hle : MIN lim (MAX 0 x) ≤ lim := MIN_le_left _ _
  generalize MIN lim (MAX 0 x) = v at hv0 hle
  have hfl0 : 0 ≤ ⌊v⌋ := Int.floor_nonneg.mpr hv0
  have hfl : ⌊v⌋ < 4294967296 := by
    rw [Int.floor_lt]
    exact lt_of_le_of_lt hle (by exact_mod_cast hlt)
  unfold guint_of_gfloat G_MAXUINT_SUCC
  rw [if_pos hv0]
  have hnat : Int.toNat ⌊v⌋ < 4294967296 := by omega
  rw [Nat.mod_eq_of_lt hnat]
  exact Int.toNat_of_nonneg hfl0

theorem obj_loop_f32_singleton (s : GstFaceTracker) (r : NvBufSurfTransformRect)
    (d : NvOSD_RectParams) : obj_loop_f32 s r [d] = obj_src_rect_f32 s d := rfl

theorem update_f32_src_rect (s : GstFaceTracker) (ds : List NvOSD_RectParams) :
    (update_f32 s ds).src_rect = some (obj_loop_f32 s
      { left := s.prev_rect.left, top := s.prev_rect.top,
        width := s.output_width, height := s.output_height } ds) := rfl

/-- One coordinate of the binary32 rendering equals that of the exact rendering
when no operation rounds. -/
theorem candidate_f32_eq_exact (limit half : Nat) (pos size : ℚ)
    (h1 : binary32 (size / 2) = size / 2)
    (h2 : binary32 (pos + size / 2) = pos + size / 2)
    (h3 : binary32 (half : ℚ) = half)
    (h4 : binary32 (pos + size / 2 - half) = pos + size / 2 - half)
    (h5 : binary32 (limit : ℚ) = limit) :
    guint_of_gfloat (MIN (binary32 (limit : ℚ))
        (MAX 0 (binary32 (binary32 (pos + binary32 (size / 2)) - binary32 (half : ℚ)))))
      = guint_of_gfloat (MIN (limit : ℚ) (MAX 0 (pos + size / 2 - (half : ℚ)))) := by
  rw [h1, h2, h3, h4, h5]

/-- With whole-number coordinates of moderate size no operation of one coordinate
rounds. -/
theorem candidate_f32_natural (limit half : Nat) (a w : Nat)
    (hhalf : 2 * half < 16777216) (hlimit : limit ≤ 16777216)
    (haw : 2 * a + w < 16777216) :
    guint_of_gfloat (MIN (binary32 (limit : ℚ))
        (MAX 0 (binary32 (binary32 ((a : ℚ) + binary32 ((w : ℚ) / 2))
          - binary32 (half : ℚ)))))
      = Int.toNat (clamp (((a + w / 2 : Nat) : ℤ) - (half : ℤ)) 0 limit) := by
  have e1 : binary32 ((w : ℚ) / 2) = (w : ℚ) / 2 := by
    have := binary32_half (w : ℤ) (by rw [abs_of_nonneg (Int.ofNat_nonneg w)]; omega)
    simpa using this
  have e2 : binary32 ((a : ℚ) + (w : ℚ) / 2) = (a : ℚ) + (w : ℚ) / 2 := by
    have := binary32_half ((2 * a + w : Nat) : ℤ)
      (by rw [abs_of_nonneg (Int.ofNat_nonneg _)]; omega)
    have e : (((2 * a + w : Nat) : ℤ) : ℚ) / 2 = (a : ℚ) + (w : ℚ) / 2 := by
      push_cast; ring
    rwa [e] at this
  have e3 : binary32 (half : ℚ) = (half : ℚ) := binary32_natCast _ (by omega)
  have e4 : binary32 ((a : ℚ) + (w : ℚ) / 2 - (half : ℚ))
      = (a : ℚ) + (w : ℚ) / 2 - (half : ℚ) := by
    have := binary32_half (((2 * a + w : Nat) : ℤ) - ((2 * half : Nat) : ℤ))
      (by rw [abs_lt]; omega)
    have e : ((((2 * a + w : Nat) : ℤ) - ((2 * half : Nat) : ℤ) : ℤ) : ℚ) / 2
        = (a : ℚ) + (w : ℚ) / 2 - (half : ℚ) := by
      push_cast; ring
    rwa [e] at this
  have e5 : binary32 (limit : ℚ) = limit := binary32_natCast _ hlimit
  rw [candidate_f32_eq_exact limit half a w e1 e2 e3 e4 e5,
    candidate_eq_clamp_floor limit (by unfold G_MAXUINT_SUCC; omega), floor_center_sub]

theorem binary32_intCast (m : ℤ) (hm : |m| < 16777216) : binary32 (m : ℚ) = m := by
  have := binary32_dyadic m 0 (by norm_num) hm
  simpa using this

/-- In binary32 arithmetic too the rectangle of an object respects both limits, as
long as the limits are binary32 values (at most `2^24`, as on the element, whose
input size is fixed at 3840x2160). -/
theorem obj_src_rect_f32_le (s : GstFaceTracker) (d : NvOSD_RectParams)
    (hl : s.left_upper_limit ≤ 16777216) (ht : s.top_upper_limit ≤ 16777216) :
    (obj_src_rect_f32 s d).left ≤ s.left_upper_limit ∧
      (obj_src_rect_f32 s d).top ≤ s.top_upper_limit := by
  have e1 := binary32_natCast _ hl
  have e2 := binary32_natCast _ ht
  unfold obj_src_rect_f32
  simp only [e1, e2]
  exact ⟨candidate_le_limit _ _, candidate_le_limit _ _⟩


/-! ## The structure of the update in binary32 arithmetic

The two renderings differ in the numbers of lines 505-506 only. The facts below
restate, for the binary32 rendering, what the claims on the structure of the
update rest on. -/

/-- Without a detection the two renderings are the same computation. -/
theorem update_f32_nil (s : GstFaceTracker) : update_f32 s [] = update s [] := rfl

theorem obj_loop_f32_of_ne_nil (s : GstFaceTracker) (r : NvBufSurfTransformRect)
    (ds : List NvOSD_RectParams) (h : ds ≠ []) :
    obj_loop_f32 s r ds = obj_src_rect_f32 s (ds.getLast h) := by
  have key := List.dropLast_append_getLast h
  have step : obj_loop_f32 s r (ds.dropLast ++ [ds.getLast h])
      = obj_src_rect_f32 s (ds.getLast h) := by
    simp [obj_loop_f32, List.foldl_append]
  rw [key] at step
  exact step

/-- In binary32 arithmetic too the last detection of a frame decides the result. -/
theorem update_f32_last (s : GstFaceTracker) (ds : List NvOSD_RectParams) (h : ds ≠ []) :
    update_f32 s ds = update_f32 s [ds.getLast h] := by
  have hrect := obj_loop_f32_of_ne_nil s
    { left := s.prev_rect.left, top := s.prev_rect.top,
      width := s.output_width, height := s.output_height } ds h
  show gst_facetracker_transform_f32 s true true [ds] true
    = gst_facetracker_transform_f32 s true true [[ds.getLast h]] true
  simp only [gst_facetracker_transform_f32, frame_loop_f32, List.foldl_cons, List.foldl_nil,
    hrect, obj_loop_f32_singleton]

/-- In binary32 arithmetic too the emitted rectangle is stored and has the output
size. -/
theorem update_f32_size (s : GstFaceTracker) (ds : List NvOSD_RectParams) :
    ∃ r, (update_f32 s ds).src_rect = some r ∧ (update_f32 s ds).facetracker.prev_rect = r ∧
      r.width = s.output_width ∧ r.height = s.output_height := by
  refine ⟨_, update_f32_src_rect s ds, rfl, ?_⟩
  by_cases h : ds = []
  · subst h
    exact ⟨rfl, rfl⟩
  · rw [obj_loop_f32_of_ne_nil s _ ds h]
    exact ⟨rfl, rfl⟩

/-- In binary32 arithmetic too an update keeps the rectangle within limits that are
binary32 values. -/
theorem update_f32_le (s : GstFaceTracker) (ds : List NvOSD_RectParams)
    (hl : s.left_upper_limit ≤ 16777216) (ht : s.top_upper_limit ≤ 16777216)
    (hpl : s.prev_rect.left ≤ s.left_upper_limit)
    (hpt : s.prev_rect.top ≤ s.top_upper_limit) :
    ∃ r, (update_f32 s ds).src_rect = some r ∧ (update_f32 s ds).facetracker.prev_rect = r ∧
      r.left ≤ s.left_upper_limit ∧ r.top ≤ s.top_upper_limit := by
  refine ⟨_, update_f32_src_rect s ds, rfl, ?_⟩
  by_cases h : ds = []
  · subst h
    exact ⟨hpl, hpt⟩
  · rw [obj_loop_f32_of_ne_nil s _ ds h]
    exact obj_src_rect_f32_le s _ hl ht

/-- For a detection with whole-number coordinates of moderate size the two
renderings give the same rectangle. -/
theorem obj_src_rect_f32_natural (s : GstFaceTracker) (left top width height : Nat)
    (how : s.output_width < 16777216) (hoh : s.output_height < 16777216)
    (hl : s.left_upper_limit ≤ 16777216) (ht : s.top_upper_limit ≤ 16777216)
    (hx : 2 * left + width < 16777216) (hy : 2 * top + height < 16777216) :
    obj_src_rect_f32 s { left := left, top := top, width := width, height := height } =
      obj_src_rect s { left := left, top := top, width := width, height := height } := by
  unfold obj_src_rect_f32 obj_src_rect obj_x_center obj_y_center
  simp only
  rw [candidate_f32_natural _ _ left width (by omega) hl hx,
    candidate_f32_natural _ _ top height (by omega) ht hy,
    candidate_eq_clamp_floor _ (by unfold G_MAXUINT_SUCC; omega),
    candidate_eq_clamp_floor _ (by unfold G_MAXUINT_SUCC; omega),
    floor_center_sub, floor_center_sub]


/-! ## The claims on the emitted numbers, in binary32 arithmetic -/

/-- C2, counterexample: on the started default element the detection
`{1900.5, 1000, 100, 100}` has the centre `(1950.5, 1050)`; the clamp of the
claim is `1950.5 - 960 = 990.5` on the horizontal axis, the update emits
`left = 990`. -/
theorem C2_candidate_formula_counterexample :
    (update_f32 (gst_facetracker_start (gst_facetracker_init zeroed))
        [{ left := 3801 / 2, top := 1000, width := 100, height := 100 }]).src_rect =
      some { left := 990, top := 510, width := 1920, height := 1080 } ∧
    clampQ ((3801 / 2 : ℚ) + 100 / 2
        - ((gst_facetracker_start (gst_facetracker_init zeroed)).output_width : ℚ) / 2) 0
      ((gst_facetracker_start (gst_facetracker_init zeroed)).left_upper_limit : ℚ)
      = 1981 / 2 ∧
    (1981 / 2 : ℚ) ≠ ((990 : Nat) : ℚ) := by
  have b50 : binary32 (50 : ℚ) = 50 := by simpa using binary32_intCast 50 (by norm_num)
  have b1050 : binary32 (1050 : ℚ) = 1050 := by
    simpa using binary32_intCast 1050 (by norm_num)
  have b540 : binary32 (540 : ℚ) = 540 := by simpa using binary32_intCast 540 (by norm_num)
  have b510 : binary32 (510 : ℚ) = 510 := by simpa using binary32_intCast 510 (by norm_num)
  have b1080 : binary32 (1080 : ℚ) = 1080 := by
    simpa using binary32_intCast 1080 (by norm_num)
  have b960 : binary32 (960 : ℚ) = 960 := by simpa using binary32_intCast 960 (by norm_num)
  have b1920 : binary32 (1920 : ℚ) = 1920 := by
    simpa using binary32_intCast 1920 (by norm_num)
  have bc : binary32 (3901 / 2 : ℚ) = 3901 / 2 := by
    simpa using binary32_half 3901 (by norm_num)
  have bd : binary32 (1981 / 2 : ℚ) = 1981 / 2 := by
    simpa using binary32_half 1981 (by norm_num)
  refine ⟨?_, ?_, ?_⟩
  · rw [update_f32_src_rect, obj_loop_f32_singleton]
    norm_num [obj_src_rect_f32, obj_x_center, obj_y_center, gst_facetracker_start,
      gst_facetracker_init, zeroed, guint_sub, G_MAXUINT_SUCC, DEFAULT_INPUT_HEIGHT,
      DEFAULT_INPUT_WIDTH, DEFAULT_OUTPUT_HEIGHT, DEFAULT_OUTPUT_WIDTH]
    norm_num [b50, b1050, b540, b510, b1080, b960, b1920, bc, bd]
    norm_num [MIN, MAX, guint_of_gfloat, G_MAXUINT_SUCC]
    constructor <;> rfl
  · norm_num [clampQ, gst_facetracker_start, gst_facetracker_init, zeroed, guint_sub,
      G_MAXUINT_SUCC, DEFAULT_INPUT_WIDTH, DEFAULT_OUTPUT_WIDTH]
  · norm_num

/-- C2 (candidate formula, amended). For every tracker state whose limits are at
most `2^32 - 129` and every detection, the update emits a rectangle of the output
size with `left = floor (clamp (x, 0, L))` and `top = floor (clamp (y, 0, T))`,
where `x = obj_x_center - output_width / 2` and `y = obj_y_center - output_height / 2`
are computed as the code does (the halves of the output size by integer division,
every float operation rounded to binary32) and `L`, `T` are the limits converted
to binary32. When the detection has whole-number coordinates, `2 * left + width`
and `2 * top + height` and the output size are below `2^24` and the limits are at
most `2^24`, nothing rounds and the rectangle is
`left = clamp (cx - output_width / 2, 0, left_upper_limit)`,
`top = clamp (cy - output_height / 2, 0, top_upper_limit)` with
`cx = left + width / 2`, `cy = top + height / 2`, every `/` the integer division. -/
theorem C2_candidate_formula (s : GstFaceTracker) (d : NvOSD_RectParams)
    (hl : s.left_upper_limit ≤ 4294967167) (ht : s.top_upper_limit ≤ 4294967167) :
    ∃ r, (update_f32 s [d]).src_rect = some r ∧
      r.width = s.output_width ∧ r.height = s.output_height ∧
      (r.left : ℤ) = ⌊clampQ
        (binary32 (obj_x_center d - binary32 ((s.output_width / 2 : Nat) : ℚ)))
        0 (binary32 (s.left_upper_limit : ℚ))⌋ ∧
      (r.top : ℤ) = ⌊clampQ
        (binary32 (obj_y_center d - binary32 ((s.output_height / 2 : Nat) : ℚ)))
        0 (binary32 (s.top_upper_limit : ℚ))⌋ ∧
      ∀ left top width height : Nat,
        d = { left := left, top := top, width := width, height := height } →
        s.output_width < 16777216 → s.output_height < 16777216 →
        s.left_upper_limit ≤ 16777216 → s.top_upper_limit ≤ 16777216 →
        2 * left + width < 16777216 → 2 * top + height < 16777216 →
        r = { left := Int.toNat (clamp
                (((left + width / 2 : Nat) : ℤ) - ((s.output_width / 2 : Nat) : ℤ))
                0 s.left_upper_limit)
              top := Int.toNat (clamp
                (((top + height / 2 : Nat) : ℤ) - ((s.output_height / 2 : Nat) : ℤ))
                0 s.top_upper_limit)
              width := s.output_width
              height := s.output_height } := by
  have hL := cast_clamp_eq_floor (binary32 (s.left_upper_limit : ℚ))
    (binary32 (obj_x_center d - binary32 ((s.output_width / 2 : Nat) : ℚ)))
    (binary32_nonneg (Nat.cast_nonneg _)) (binary32_limit_lt _ hl)
  have hT := cast_clamp_eq_floor (binary32 (s.top_upper_limit : ℚ))
    (binary32 (obj_y_center d - binary32 ((s.output_height / 2 : Nat) : ℚ)))
    (binary32_nonneg (Nat.cast_nonneg _)) (binary32_limit_lt _ ht)
  refine ⟨obj_src_rect_f32 s d, ?_, rfl, rfl, ?_, ?_, ?_⟩
  · rw [update_f32_src_rect, obj_loop_f32_singleton]
  · unfold clampQ
    rw [min_comm, max_comm]
    exact hL
  · unfold clampQ
    rw [min_comm, max_comm]
    exact hT
  · intro left top width height hd how hoh hl24 ht24 hx hy
    subst hd
    unfold obj_src_rect_f32 obj_x_center obj_y_center
    simp only
    rw [candidate_f32_natural _ _ left width (by omega) hl24 hx,
      candidate_f32_natural _ _ top height (by omega) ht24 hy]

/-- C2, the scenario of the specification: with input 3840x2160 and output
1920x1080 the detection `{1900, 1000, 100, 100}` yields `{990, 510, 1920, 1080}`. -/
theorem C2_candidate_formula_witness :
    (update_f32 (gst_facetracker_start (gst_facetracker_init zeroed))
        [{ left := ((1900 : Nat) : ℚ), top := ((1000 : Nat) : ℚ),
           width := ((100 : Nat) : ℚ), height := ((100 : Nat) : ℚ) }]).src_rect =
      some { left := 990, top := 510, width := 1920, height := 1080 } := by
  obtain ⟨r, hr, _, _, _, _, hnat⟩ := C2_candidate_formula
    (gst_facetracker_start (gst_facetracker_init zeroed))
    { left := ((1900 : Nat) : ℚ), top := ((1000 : Nat) : ℚ),
      width := ((100 : Nat) : ℚ), height := ((100 : Nat) : ℚ) } (by decide) (by decide)
  rw [hr, hnat 1900 1000 100 100 rfl (by decide) (by decide) (by decide) (by decide)
    (by decide) (by decide)]
  decide

/-- C14, counterexample: on the started default element take the detection with
`left = 1961 - 2^-13` and `width = 2^-13`, both binary32 values. The centre
`1961 - 2^-14` is a tie and rounds to `1961.0`, so the update emits `left = 1001`;
the formula of the claim gives `floor (1961 - 2^-14 - 960) = 1000`. -/
theorem C14_exact_semantics_counterexample :
    binary32 (16064511 / 8192) = 16064511 / 8192 ∧ binary32 (1 / 8192) = 1 / 8192 ∧
    (update_f32 (gst_facetracker_start (gst_facetracker_init zeroed))
        [{ left := 16064511 / 8192, top := 1000, width := 1 / 8192, height := 100 }]).src_rect =
      some { left := 1001, top := 510, width := 1920, height := 1080 } ∧
    ⌊min (((gst_facetracker_start (gst_facetracker_init zeroed)).left_upper_limit : Nat) : ℚ)
        (max 0 ((16064511 / 8192 : ℚ) + 1 / 8192 / 2
          - (((gst_facetracker_start (gst_facetracker_init zeroed)).output_width / 2 : Nat)
              : ℚ)))⌋ = 1000 := by
  have b50 : binary32 (50 : ℚ) = 50 := by simpa using binary32_intCast 50 (by norm_num)
  have b1050 : binary32 (1050 : ℚ) = 1050 := by
    simpa using binary32_intCast 1050 (by norm_num)
  have b540 : binary32 (540 : ℚ) = 540 := by simpa using binary32_intCast 540 (by norm_num)
  have b510 : binary32 (510 : ℚ) = 510 := by simpa using binary32_intCast 510 (by norm_num)
  have b1080 : binary32 (1080 : ℚ) = 1080 := by
    simpa using binary32_intCast 1080 (by norm_num)
  have b960 : binary32 (960 : ℚ) = 960 := by simpa using binary32_intCast 960 (by norm_num)
  have b1920 : binary32 (1920 : ℚ) = 1920 := by
    simpa using binary32_intCast 1920 (by norm_num)
  have b1001 : binary32 (1001 : ℚ) = 1001 := by
    simpa using binary32_intCast 1001 (by norm_num)
  have bleft : binary32 (16064511 / 8192 : ℚ) = 16064511 / 8192 := by
    have := binary32_dyadic 16064511 (-13) (by norm_num) (by norm_num)
    norm_num at this ⊢
    exact this
  have bwidth : binary32 (1 / 8192 : ℚ) = 1 / 8192 := by
    have := binary32_dyadic 1 (-13) (by norm_num) (by norm_num)
    norm_num at this ⊢
    exact this
  have bhalf : binary32 (1 / 16384 : ℚ) = 1 / 16384 := by
    have := binary32_dyadic 1 (-14) (by norm_num) (by norm_num)
    norm_num at this ⊢
    exact this
  have bcentre : binary32 (32129023 / 16384 : ℚ) = 1961 := by
    rw [binary32_eval _ 10 (by norm_num) (by norm_num [abs_of_pos]) (by norm_num [abs_of_pos])]
    norm_num [round_half_even]
  refine ⟨bleft, bwidth, ?_, ?_⟩
  · rw [update_f32_src_rect, obj_loop_f32_singleton]
    norm_num [obj_src_rect_f32, obj_x_center, obj_y_center, gst_facetracker_start,
      gst_facetracker_init, zeroed, guint_sub, G_MAXUINT_SUCC, DEFAULT_INPUT_HEIGHT,
      DEFAULT_INPUT_WIDTH, DEFAULT_OUTPUT_HEIGHT, DEFAULT_OUTPUT_WIDTH]
    norm_num [b50, b1050, b540, b510, b1080, b960, b1920, b1001, bhalf, bcentre]
    norm_num [MIN, MAX, guint_of_gfloat, G_MAXUINT_SUCC]
    constructor <;> rfl
  · norm_num [gst_facetracker_start, gst_facetracker_init, zeroed, guint_sub,
      G_MAXUINT_SUCC, DEFAULT_INPUT_WIDTH, DEFAULT_OUTPUT_WIDTH]

/-- C14 (integer semantics, amended). For every tracker state whose limits are at
most `2^32 - 129` and every detection, the emitted `left` is
`floor (min (L, max (0, x)))`, where `L` is `left_upper_limit` converted to
binary32 and `x` is the binary32 result of `obj_x_center - output_width / 2`, with
`obj_x_center` the binary32 result of `left + width / 2` and `output_width / 2`
the unsigned integer division converted to binary32; `top` likewise. When none of
these operations rounds, this is the formula of the claim,
`floor (min (left_upper_limit, max (0, left + width/2 - output_width / 2)))`. -/
theorem C14_binary32_semantics (s : GstFaceTracker) (d : NvOSD_RectParams)
    (hl : s.left_upper_limit ≤ 4294967167) (ht : s.top_upper_limit ≤ 4294967167) :
    ∃ r, (update_f32 s [d]).src_rect = some r ∧
      (r.left : ℤ) = ⌊min (binary32 (s.left_upper_limit : ℚ))
        (max 0 (binary32 (obj_x_center d - binary32 ((s.output_width / 2 : Nat) : ℚ))))⌋ ∧
      (r.top : ℤ) = ⌊min (binary32 (s.top_upper_limit : ℚ))
        (max 0 (binary32 (obj_y_center d - binary32 ((s.output_height / 2 : Nat) : ℚ))))⌋ ∧
      (binary32 (d.width / 2) = d.width / 2 →
        binary32 (d.left + d.width / 2) = d.left + d.width / 2 →
        binary32 ((s.output_width / 2 : Nat) : ℚ) = ((s.output_width / 2 : Nat) : ℚ) →
        binary32 (d.left + d.width / 2 - ((s.output_width / 2 : Nat) : ℚ))
          = d.left + d.width / 2 - ((s.output_width / 2 : Nat) : ℚ) →
        binary32 (s.left_upper_limit : ℚ) = (s.left_upper_limit : ℚ) →
        (r.left : ℤ) = ⌊min (s.left_upper_limit : ℚ)
          (max 0 (d.left + d.width / 2 - ((s.output_width / 2 : Nat) : ℚ)))⌋) ∧
      (binary32 (d.height / 2) = d.height / 2 →
        binary32 (d.top + d.height / 2) = d.top + d.height / 2 →
        binary32 ((s.output_height / 2 : Nat) : ℚ) = ((s.output_height / 2 : Nat) : ℚ) →
        binary32 (d.top + d.height / 2 - ((s.output_height / 2 : Nat) : ℚ))
          = d.top + d.height / 2 - ((s.output_height / 2 : Nat) : ℚ) →
        binary32 (s.top_upper_limit : ℚ) = (s.top_upper_limit : ℚ) →
        (r.top : ℤ) = ⌊min (s.top_upper_limit : ℚ)
          (max 0 (d.top + d.height / 2 - ((s.output_height / 2 : Nat) : ℚ)))⌋) := by
  have hL := cast_clamp_eq_floor (binary32 (s.left_upper_limit : ℚ))
    (binary32 (obj_x_center d - binary32 ((s.output_width / 2 : Nat) : ℚ)))
    (binary32_nonneg (Nat.cast_nonneg _)) (binary32_limit_lt _ hl)
  have hT := cast_clamp_eq_floor (binary32 (s.top_upper_limit : ℚ))
    (binary32 (obj_y_center d - binary32 ((s.output_height / 2 : Nat) : ℚ)))
    (binary32_nonneg (Nat.cast_nonneg _)) (binary32_limit_lt _ ht)
  refine ⟨obj_src_rect_f32 s d, ?_, hL, hT, ?_, ?_⟩
  · rw [update_f32_src_rect, obj_loop_f32_singleton]
  · intro h1 h2 h3 h4 h5
    have e : (obj_src_rect_f32 s d).left = guint_of_gfloat
        (MIN (binary32 (s.left_upper_limit : ℚ))
          (MAX 0 (binary32 (obj_x_center d - binary32 ((s.output_width / 2 : Nat) : ℚ))))) :=
      rfl
    rw [e, hL]
    unfold obj_x_center
    rw [h1, h2, h3, h4, h5]
  · intro h1 h2 h3 h4 h5
    have e : (obj_src_rect_f32 s d).top = guint_of_gfloat
        (MIN (binary32 (s.top_upper_limit : ℚ))
          (MAX 0 (binary32 (obj_y_center d - binary32 ((s.output_height / 2 : Nat) : ℚ))))) :=
      rfl
    rw [e, hT]
    unfold obj_y_center
    rw [h1, h2, h3, h4, h5]

/-- C14, instance: the started default element and the detection
`{1900, 1000, 101, 100}`, whose centre `(1950.5, 1050)` is computed without
rounding: `left = floor (990.5) = 990`, `top = 510`. -/
theorem C14_binary32_semantics_witness :
    ∃ r, (update_f32 (gst_facetracker_start (gst_facetracker_init zeroed))
        [{ left := 1900, top := 1000, width := 101, height := 100 }]).src_rect = some r ∧
      (r.left : ℤ) = 990 ∧ (r.top : ℤ) = 510 := by
  have b50 : binary32 (50 : ℚ) = 50 := by simpa using binary32_intCast 50 (by norm_num)
  have b1050 : binary32 (1050 : ℚ) = 1050 := by
    simpa using binary32_intCast 1050 (by norm_num)
  have b540 : binary32 (540 : ℚ) = 540 := by simpa using binary32_intCast 540 (by norm_num)
  have b510 : binary32 (510 : ℚ) = 510 := by simpa using binary32_intCast 510 (by norm_num)
  have b1080 : binary32 (1080 : ℚ) = 1080 := by
    simpa using binary32_intCast 1080 (by norm_num)
  have b960 : binary32 (960 : ℚ) = 960 := by simpa using binary32_intCast 960 (by norm_num)
  have b1920 : binary32 (1920 : ℚ) = 1920 := by
    simpa using binary32_intCast 1920 (by norm_num)
  have bw : binary32 (101 / 2 : ℚ) = 101 / 2 := by
    simpa using binary32_half 101 (by norm_num)
  have bc : binary32 (3901 / 2 : ℚ) = 3901 / 2 := by
    simpa using binary32_half 3901 (by norm_num)
  have bd : binary32 (1981 / 2 : ℚ) = 1981 / 2 := by
    simpa using binary32_half 1981 (by norm_num)
  obtain ⟨r, hr, _, _, hx, hy⟩ := C14_binary32_semantics
    (gst_facetracker_start (gst_facetracker_init zeroed))
    { left := 1900, top := 1000, width := 101, height := 100 } (by decide) (by decide)
  refine ⟨r, hr, ?_, ?_⟩
  · rw [hx (by norm_num [bw]) (by norm_num [bc])
      (by norm_num [gst_facetracker_start, gst_facetracker_init, DEFAULT_OUTPUT_WIDTH, b960])
      (by norm_num [gst_facetracker_start, gst_facetracker_init, DEFAULT_OUTPUT_WIDTH, bd])
      (by norm_num [gst_facetracker_start, gst_facetracker_init, zeroed, guint_sub,
        G_MAXUINT_SUCC, DEFAULT_INPUT_WIDTH, DEFAULT_OUTPUT_WIDTH, b1920])]
    norm_num [gst_facetracker_start, gst_facetracker_init, zeroed, guint_sub,
      G_MAXUINT_SUCC, DEFAULT_INPUT_WIDTH, DEFAULT_OUTPUT_WIDTH]
  · rw [hy (by norm_num [b50]) (by norm_num [b1050])
      (by norm_num [gst_facetracker_start, gst_facetracker_init, DEFAULT_OUTPUT_HEIGHT, b540])
      (by norm_num [gst_facetracker_start, gst_facetracker_init, DEFAULT_OUTPUT_HEIGHT, b510])
      (by norm_num [gst_facetracker_start, gst_facetracker_init, zeroed, guint_sub,
        G_MAXUINT_SUCC, DEFAULT_INPUT_HEIGHT, DEFAULT_OUTPUT_HEIGHT, b1080])]
    norm_num [gst_facetracker_start, gst_facetracker_init, zeroed, guint_sub,
      G_MAXUINT_SUCC, DEFAULT_INPUT_HEIGHT, DEFAULT_OUTPUT_HEIGHT]

end FaceTrack
